import Mathlib

/-!
Verification development for the WebGCodeSender machine-state tracker.

The definitions below are a shallow embedding of the TypeScript sources:
  * `MachineState.ts` (the richest iteration, with arc support): the
    machine-state tracker `MachineState` with its command classifier,
    command-buffer ledger, status-report handling, and motion simulator;
  * `mathUtil.ts`: the arc geometry utilities;
  * `grbl.ts`: protocol constants;
  * `gcodeParser.ts`: the command-line tokenizer.

JavaScript numbers are modelled by `JNum := Option ℝ`: `none` is NaN and
`some r` an (idealized, non-overflowing) real.  JavaScript `undefined` is
modelled with a further `Option` layer exactly at the places the code
distinguishes it from NaN (`!= null` checks and `??=` defaulting).
Strings are modelled as `List Char`.
-/

namespace WebGCode

/-! ## Enumerations (types.ts / grbl.ts) -/

inductive DistanceMode | Abs | Inc
  deriving DecidableEq

inductive MotionMode | Rapid | Linear | ClockwiseArc | CounterClockwiseArc
  deriving DecidableEq

inductive UnitMode | Inch | Milimeter
  deriving DecidableEq

inductive GrblState
  | Idle | Alarm | CheckMode | Homing | Cycle | Hold | Jog | SafetyDoor | Sleep
  deriving DecidableEq

/-! ## A model of JavaScript float arithmetic

`JNum` is a JavaScript number: `none` models NaN, `some r` a real value.
Infinities and signed zero are idealized away (no operation in the
modelled code can produce them on the inputs it guards for; division by
zero, which would produce an infinity in JavaScript, is mapped to NaN and
noted where the corresponding definition is used). -/

def JNum : Type := Option ℝ

noncomputable def jn (r : ℝ) : JNum := some r

noncomputable instance (n : ℕ) [OfNat ℝ n] : OfNat JNum n :=
  ⟨some (OfNat.ofNat n : ℝ)⟩

noncomputable def jadd (a b : JNum) : JNum :=
  match a, b with
  | some x, some y => some (x + y)
  | _, _ => none

noncomputable def jsub (a b : JNum) : JNum :=
  match a, b with
  | some x, some y => some (x - y)
  | _, _ => none

noncomputable def jmul (a b : JNum) : JNum :=
  match a, b with
  | some x, some y => some (x * y)
  | _, _ => none

noncomputable def jneg (a : JNum) : JNum :=
  match a with
  | some x => some (-x)
  | none => none

/-- Division.  JavaScript yields an infinity for `x / 0` with `x ≠ 0`; the
idealized model maps every division by zero to NaN.  No code path used by a
claim divides by zero. -/
noncomputable def jdiv (a b : JNum) : JNum :=
  match a, b with
  | some x, some y => if y = 0 then none else some (x / y)
  | _, _ => none

/-- Squaring, the model of the JavaScript `** 2` exponentiations. -/
noncomputable def jsq (a : JNum) : JNum := jmul a a

/-- Model of `Math.sqrt`: NaN on negative inputs. -/
noncomputable def jsqrt (a : JNum) : JNum :=
  match a with
  | some x => if x < 0 then none else some (Real.sqrt x)
  | none => none

/-- Model of `Math.acos`: NaN outside `[-1, 1]`. -/
noncomputable def jacos (a : JNum) : JNum :=
  match a with
  | some x => if x < -1 ∨ 1 < x then none else some (Real.arccos x)
  | none => none

noncomputable def jcos (a : JNum) : JNum := a.map Real.cos

noncomputable def jsin (a : JNum) : JNum := a.map Real.sin

/-- Model of `Math.atan2 y x` via the complex argument, which has the same
piecewise definition on ℝ² ∖ {0}; `atan2 0 0 = 0` matches `Complex.arg 0 = 0`. -/
noncomputable def jatan2 (y x : JNum) : JNum :=
  match y, x with
  | some b, some a => some (Complex.arg (Complex.mk a b))
  | _, _ => none

noncomputable def jpi : JNum := some Real.pi

/-- Comparison `<`; false whenever either side is NaN. -/
noncomputable def jlt (a b : JNum) : Bool :=
  match a, b with
  | some x, some y => decide (x < y)
  | _, _ => false

/-- Comparison `<=`; false whenever either side is NaN. -/
noncomputable def jle (a b : JNum) : Bool :=
  match a, b with
  | some x, some y => decide (x ≤ y)
  | _, _ => false

/-- Comparison `>`; false whenever either side is NaN. -/
noncomputable def jgt (a b : JNum) : Bool := jlt b a

/-- Comparison `>=`; false whenever either side is NaN. -/
noncomputable def jge (a b : JNum) : Bool := jle b a

/-- Strict equality `===`; false whenever either side is NaN. -/
noncomputable def jeq (a b : JNum) : Bool :=
  match a, b with
  | some x, some y => decide (x = y)
  | _, _ => false

/-! ## Byte decoding

`TextDecoder.decode` restricted to the byte sequences this application
produces: ASCII text (from `TextEncoder.encode` of command strings) and
lone realtime bytes such as `0x85`, which are invalid as UTF-8 and decode
to the replacement character U+FFFD. -/

def decodeByte (b : ℕ) : Char :=
  if b < 0x80 then Char.ofNat b else '�'

def decodeBytes (cmd : List ℕ) : List Char := cmd.map decodeByte

/-- Encoding of an ASCII string into bytes (the `TextEncoder.encode` used by
callers to build command byte arrays). -/
def encodeChars (s : List Char) : List ℕ := s.map Char.toNat

/-! ## Numeric token parsing (JavaScript `parseInt` / `parseFloat`)

`JsArg := Option ℚ` is a parsed numeric token: `none` models NaN.  The
definitions cover sign handling and decimal digits — the shapes produced
and consumed by this application; `parseInt`'s hexadecimal prefix and
`parseFloat`'s exponent notation never occur in g-code words and are not
modelled. -/

abbrev JsArg := Option ℚ

def isJsSpace (c : Char) : Bool := c = ' ' ∨ c = '\t' ∨ c = '\n' ∨ c = '\r'

def isDigitChar (c : Char) : Bool := '0' ≤ c ∧ c ≤ '9'

def digitsToNat (ds : List Char) : ℕ :=
  ds.foldl (fun a c => a * 10 + (c.toNat - 48)) 0

def splitSign (cs : List Char) : Bool × List Char :=
  match cs with
  | '-' :: rest => (true, rest)
  | '+' :: rest => (false, rest)
  | rest => (false, rest)

def jsParseInt (cs : List Char) : JsArg :=
  let (neg, rest) := splitSign (cs.dropWhile isJsSpace)
  let ds := rest.takeWhile isDigitChar
  if ds.isEmpty then none
  else if neg then some (-(digitsToNat ds : ℚ)) else some (digitsToNat ds : ℚ)

def jsParseFloat (cs : List Char) : JsArg :=
  let (neg, rest) := splitSign (cs.dropWhile isJsSpace)
  let intDs := rest.takeWhile isDigitChar
  let rest2 := rest.dropWhile isDigitChar
  let fracDs :=
    match rest2 with
    | '.' :: r => r.takeWhile isDigitChar
    | _ => []
  if intDs.isEmpty ∧ fracDs.isEmpty then none
  else
    some ((if neg then -1 else 1) *
      ((digitsToNat intDs : ℚ) + (digitsToNat fracDs : ℚ) / 10 ^ fracDs.length))

/-! ## The command tokenizer (gcodeParser.ts) -/

/-- Scanner for `removeCommandComments`, the global replacement of the
regex alternation matching either a parenthesized group (greedy, not
crossing a newline) or a `;`-to-end-of-line stretch.  The structural fuel
bounds the recursion depth: every step consumes at least one input
character, so a fuel of the input length always suffices. -/
def removeCommandCommentsAux : ℕ → List Char → List Char
  | 0, cs => cs
  | _, [] => []
  | fuel + 1, '(' :: rest =>
    let seg := rest.takeWhile (· ≠ '\n')
    if ')' ∈ seg then
      -- greedy `\(.*\)`: consume through the last `)` before the newline
      let tailLen := (seg.reverse.takeWhile (· ≠ ')')).length
      removeCommandCommentsAux fuel (rest.drop (seg.length - tailLen))
    else
      '(' :: removeCommandCommentsAux fuel rest
  | fuel + 1, ';' :: rest => removeCommandCommentsAux fuel (rest.dropWhile (· ≠ '\n'))
  | fuel + 1, c :: rest => c :: removeCommandCommentsAux fuel rest

def removeCommandComments (cs : List Char) : List Char :=
  removeCommandCommentsAux cs.length cs

/-- Model of `String.prototype.split(" ")`: splits at every space,
preserving empty segments. -/
def splitSpaces : List Char → List (List Char)
  | [] => [[]]
  | ' ' :: rest => [] :: splitSpaces rest
  | c :: rest =>
    match splitSpaces rest with
    | h :: t => (c :: h) :: t
    | [] => [[c]]

/-- A tokenized command word: the one-character letter string
(`commandWord.substring(0, 1)`, empty for an empty word) and the numeric
argument (`none` models NaN). -/
abbrev Word := List Char × JsArg

def tokenizeWord (w : List Char) : Word :=
  let argStr := w.drop 1
  (w.take 1, if '.' ∈ argStr then jsParseFloat argStr else jsParseInt argStr)

def parseCommand (cs : List Char) : List Word :=
  (splitSpaces (removeCommandComments cs)).map tokenizeWord

/-! ## Protocol constants (grbl.ts) -/

def CANCEL_JOG_COMMAND : ℕ := 0x85

def STATUS_REPORT_QUERY_COMMAND : ℕ := 0x3F

def REALTIME_COMMANDS : List ℕ := [STATUS_REPORT_QUERY_COMMAND, CANCEL_JOG_COMMAND]

def CHAR_BUFFER_LIMIT : ℤ := 128

/-- Model of the constant `JOG_COMMAND_PREFIX = "$J="` from grbl.ts. -/
def JOG_COMMAND_MARK : List Char := ['$', 'J', '=']

noncomputable def SIMULATION_UPDATE_INTERVAL_MS : JNum := 25

/-! ## Data model (MachineState.ts) -/

/-- A JavaScript number-valued 3-vector (`Vec3` holding possibly-NaN floats). -/
structure JVec3 where
  x : JNum
  y : JNum
  z : JNum

/-- A JavaScript number-valued 2-vector. -/
structure JVec2 where
  x : JNum
  y : JNum

/-- A `Partial<Vec3>` accumulated from axis words: each field is absent
(`none`, JavaScript `undefined`) or a parsed numeric argument. -/
structure PartialVec3 where
  x : Option JsArg := none
  y : Option JsArg := none
  z : Option JsArg := none

/-- A `Partial<Vec2>` accumulated from I/J words. -/
structure PartialVec2 where
  x : Option JsArg := none
  y : Option JsArg := none

def jsArgToJNum (a : JsArg) : JNum := a.map (fun q => (q : ℝ))

/-- A scheduled simulation callback: the closure captured by the
`setTimeout` call in `#simulateLinearMotion` or `#simulateArcMotion`. -/
inductive SimCont
  | linear (startVec stepVec : JVec3) (stepDistance totalDistance : JNum) (isJog : Bool)
  | arc (currentPosVec : JVec2) (totalDistance distanceTravelled : JNum)
      (isClockwise : Bool) (arcCenter : JVec2) (angleOfRotation arcStepLength : JNum)

/-- The view of an incoming message line through the JavaScript string and
regex operations `registerMessage` / `#registerStatusReport` apply to it:
the `startsWith` tests against `OK_MESSAGE` and `ERROR_MESSAGE`, the
`STATUS_REPORT_REGEX` test, the position triple extracted by
`STATUS_REPORT_POS_REGEX` followed by `split(",")` and `parseFloat`, and
the first `STATUS_REPORT_STATE_REGEX` match. -/
structure Msg where
  startsOk : Bool
  startsError : Bool
  isStatusReport : Bool
  coords : Option (ℝ × ℝ × ℝ)
  stateToken : Option (List Char)

/-- The `MachineState` object.  The `pending` list together with
`nextTimeoutId` models the JavaScript timer queue: each `setTimeout` call
appends its callback under a fresh id, `clearTimeout` removes by id, and a
timer-fire event runs the oldest pending callback. -/
structure MState where
  pos : JVec3
  feedrate : Option JNum
  distanceMode : DistanceMode
  arcCenterDistanceMode : DistanceMode
  unitMode : UnitMode
  motionMode : MotionMode
  state : GrblState
  bufferLineCharCounts : List ℕ
  numOfCharsInBuffer : ℤ
  simulationTimeoutId : Option ℕ
  jogSimulationTimeoutId : Option ℕ
  motionSimulationEnabled : Bool
  inMotion : Bool
  motionCommandQueue : List (List ℕ)
  pending : List (ℕ × SimCont)
  nextTimeoutId : ℕ

/-- The constructor.  `feedrate` is never initialized in the source, so it
starts as JavaScript `undefined` (`none`). -/
noncomputable def MState.initial : MState where
  pos := ⟨some 0, some 0, some 0⟩
  feedrate := none
  distanceMode := .Abs
  arcCenterDistanceMode := .Inc
  unitMode := .Milimeter
  motionMode := .Linear
  state := .Idle
  bufferLineCharCounts := []
  numOfCharsInBuffer := 0
  simulationTimeoutId := none
  jogSimulationTimeoutId := none
  motionSimulationEnabled := false
  inMotion := false
  motionCommandQueue := []
  pending := []
  nextTimeoutId := 0

/-- Model of `setTimeout`: append the callback to the timer queue under a
fresh id and return the id. -/
def scheduleTimeout (s : MState) (c : SimCont) : MState × ℕ :=
  ({s with pending := s.pending ++ [(s.nextTimeoutId, c)],
           nextTimeoutId := s.nextTimeoutId + 1},
   s.nextTimeoutId)

/-- Model of `clearTimeout`. -/
def clearTimeoutById (s : MState) (timeoutId : ℕ) : MState :=
  {s with pending := s.pending.filter (fun p => p.1 != timeoutId)}

/-! ## Command buffer ledger and classification -/

def pushBufferLine (s : MState) (command : List ℕ) : MState :=
  {s with numOfCharsInBuffer := s.numOfCharsInBuffer + command.length,
          bufferLineCharCounts := s.bufferLineCharCounts ++ [command.length]}

/-- Model of `#popBufferLine`: `Array.prototype.pop` removes the last
element; on an empty array it yields `undefined`, and `?? 0` makes the
subtraction subtract zero. -/
def popBufferLine (s : MState) : MState :=
  {s with numOfCharsInBuffer :=
            s.numOfCharsInBuffer - (s.bufferLineCharCounts.getLast?.getD 0),
          bufferLineCharCounts := s.bufferLineCharCounts.dropLast}

def isRealtimeCommand (command : List ℕ) : Bool :=
  command.length == 1 && REALTIME_COMMANDS.contains (command.headD 0)

def commandWillOverflowBuffer (s : MState) (command : List ℕ) : Bool :=
  !isRealtimeCommand command &&
    decide (CHAR_BUFFER_LIMIT ≤ s.numOfCharsInBuffer + command.length)

/-! ## Status reports and incoming messages -/

/-- The state-token switch of `#registerStatusReport` (its second half):
a recognized token overwrites the run state, an unrecognized or absent
token leaves it unchanged. -/
def applyStateToken (s1 : MState) (tok : Option (List Char)) : MState :=
  match tok with
  | some t =>
    if t = "Idle".data then {s1 with state := .Idle}
    else if t = "Run".data then {s1 with state := .Cycle}
    else if t = "Hold".data then {s1 with state := .Hold}
    else if t = "Jog".data then {s1 with state := .Jog}
    else if t = "Home".data then {s1 with state := .Homing}
    else if t = "Alarm".data then {s1 with state := .Alarm}
    else if t = "Check".data then {s1 with state := .CheckMode}
    else if t = "Door".data then {s1 with state := .SafetyDoor}
    else if t = "Sleep".data then {s1 with state := .Sleep}
    else s1
  | none => s1

/-- Model of `#registerStatusReport`: the position-triple overwrite (when
the position regex matched) followed by the state-token switch. -/
def registerStatusReport (s : MState) (m : Msg) : MState :=
  applyStateToken
    (match m.coords with
     | some (x, y, z) => {s with pos := ⟨some x, some y, some z⟩}
     | none => s)
    m.stateToken

def registerMessage (s : MState) (m : Msg) : MState :=
  if m.startsOk || m.startsError then popBufferLine s
  else if m.isStatusReport then registerStatusReport s m
  else s

/-! ## Modal G codes and word dispatch -/

def registerGCode (s : MState) (gCode : List Char) : MState :=
  if gCode = "G0".data ∨ gCode = "G00".data then {s with motionMode := .Rapid}
  else if gCode = "G1".data ∨ gCode = "G01".data then {s with motionMode := .Linear}
  else if gCode = "G2".data ∨ gCode = "G02".data then {s with motionMode := .ClockwiseArc}
  else if gCode = "G3".data ∨ gCode = "G03".data then {s with motionMode := .CounterClockwiseArc}
  else s

def natToChars (n : ℕ) : List Char := (Nat.repr n).data

/-- Decimal digits of the fraction `r / d` with `r < d`, produced by long
division, with fuel.  JavaScript floats have terminating decimal
expansions, so the fuel only truncates values no float can take; the
expansion stops at the first zero remainder. -/
def fracDigitChars : ℕ → ℕ → ℕ → List Char
  | 0, _, _ => []
  | fuel + 1, r, d =>
    if r = 0 then []
    else Char.ofNat (48 + (r * 10) / d) :: fracDigitChars fuel ((r * 10) % d) d

/-- Model of `Number.prototype.toString` on a non-negative rational, via
the reduced numerator and denominator. -/
def jsRatToCharsNN (q : ℚ) : List Char :=
  if q.den = 1 then natToChars q.num.toNat
  else natToChars (q.num.toNat / q.den) ++
    '.' :: fracDigitChars 32 (q.num.toNat % q.den) q.den

def jsRatToChars (q : ℚ) : List Char :=
  if q < 0 then '-' :: jsRatToCharsNN (-q) else jsRatToCharsNN q

/-- Model of the string conversion inside `word.join("")`: a NaN argument
prints as `NaN`. -/
def jsArgToChars (a : JsArg) : List Char :=
  match a with
  | none => "NaN".data
  | some q => jsRatToChars q

/-- The accumulator threaded through the `forEach` word loop of
`registerCommand`. -/
structure CmdAcc where
  s : MState
  motionVec : PartialVec3
  isMotionCommand : Bool
  arcRadius : Option JsArg
  arcCenter : PartialVec2

def processCommandWord (acc : CmdAcc) (w : Word) : CmdAcc :=
  if w.1 = ['G'] then {acc with s := registerGCode acc.s ('G' :: jsArgToChars w.2)}
  else if w.1 = ['X'] then
    {acc with motionVec := {acc.motionVec with x := some w.2}, isMotionCommand := true}
  else if w.1 = ['Y'] then
    {acc with motionVec := {acc.motionVec with y := some w.2}, isMotionCommand := true}
  else if w.1 = ['Z'] then
    {acc with motionVec := {acc.motionVec with z := some w.2}, isMotionCommand := true}
  else if w.1 = ['R'] then {acc with arcRadius := some w.2}
  else if w.1 = ['I'] then {acc with arcCenter := {acc.arcCenter with x := some w.2}}
  else if w.1 = ['J'] then {acc with arcCenter := {acc.arcCenter with y := some w.2}}
  else if w.1 = ['F'] then {acc with s := {acc.s with feedrate := some (jsArgToJNum w.2)}}
  else acc

/-- The locals of `#registerJogCommand`'s word loop; jog words write to
these, never to the shared modal state. -/
structure JogAcc where
  jogDistanceMode : DistanceMode
  jogUnitMode : UnitMode
  jogFeedrate : Option JNum
  jogMotionVec : PartialVec3

def processJogWord (acc : JogAcc) (w : Word) : JogAcc :=
  if w.1 = ['G'] then
    let gCode := 'G' :: jsArgToChars w.2
    if gCode = "G20".data then {acc with jogUnitMode := .Inch}
    else if gCode = "G21".data then {acc with jogUnitMode := .Milimeter}
    else if gCode = "G90".data then {acc with jogDistanceMode := .Abs}
    else if gCode = "G91".data then {acc with jogDistanceMode := .Inc}
    else acc
  else if w.1 = ['X'] then
    {acc with jogMotionVec := {acc.jogMotionVec with x := some w.2}}
  else if w.1 = ['Y'] then
    {acc with jogMotionVec := {acc.jogMotionVec with y := some w.2}}
  else if w.1 = ['Z'] then
    {acc with jogMotionVec := {acc.jogMotionVec with z := some w.2}}
  else if w.1 = ['F'] then {acc with jogFeedrate := some (jsArgToJNum w.2)}
  else acc

/-! ## Arc geometry (mathUtil.ts) -/

noncomputable def circumference (radius : JNum) : JNum := jmul (jmul jpi radius) 2

noncomputable def dotProduct2D (vecA vecB : JVec2) : JNum :=
  jadd (jmul vecA.x vecB.x) (jmul vecA.y vecB.y)

noncomputable def crossProduct2D (vecA vecB : JVec2) : JNum :=
  jsub (jmul vecA.x vecB.y) (jmul vecA.y vecB.x)

noncomputable def arcAngle (startPoint endPoint centerPoint : JVec2) : JNum :=
  let startVec : JVec2 := ⟨jsub startPoint.x centerPoint.x, jsub startPoint.y centerPoint.y⟩
  let startVecMag := jsqrt (jadd (jsq startVec.x) (jsq startVec.y))
  let endVec : JVec2 := ⟨jsub endPoint.x centerPoint.x, jsub endPoint.y centerPoint.y⟩
  let endVecMag := jsqrt (jadd (jsq endVec.x) (jsq endVec.y))
  let dp := dotProduct2D startVec endVec
  let cp := crossProduct2D startVec endVec
  if jlt cp 0 then jacos (jdiv dp (jmul startVecMag endVecMag))
  else if jgt cp 0 then jadd jpi (jacos (jdiv dp (jmul startVecMag endVecMag)))
  else if jeq startVec.x endVec.x && jeq startVec.y endVec.y then jmul jpi 2
  else jpi

noncomputable def arcLength (startPoint endPoint centerPoint : JVec2) : JNum :=
  let radius := jsqrt (jadd (jsq (jsub startPoint.x centerPoint.x))
    (jsq (jsub startPoint.y centerPoint.y)))
  if jeq startPoint.x endPoint.x && jeq startPoint.y endPoint.y then
    jmul (jmul jpi radius) 2
  else
    jmul (jdiv (arcAngle startPoint endPoint centerPoint) (jmul jpi 2))
      (jmul (jmul jpi radius) 2)

/-! ## Motion simulation

The mutually recursive `registerCommand` family is stratified: each
function takes the re-dispatch entry point `rc` (the recursive
`registerCommand` reached from `#endMotion`) as a parameter, and
`registerCommandF` ties the knot with a fuel bounding the queue-drain
depth — a fuel of `motionCommandQueue.length + 1` always suffices, since
each re-dispatch consumes one queued command. -/

/-- The type of the re-dispatch entry point. -/
abbrev RC := MState → List ℕ → MState

def setSimulationTimeoutId (s : MState) (timeoutId : ℕ) (isJog : Bool) : MState :=
  if isJog then {s with jogSimulationTimeoutId := some timeoutId}
  else {s with simulationTimeoutId := some timeoutId}

/-- Model of `#endMotion`.  Note the source order: the queued command is
re-dispatched first, and only then are both timeout ids cleared. -/
def endMotionWith (rc : RC) (s : MState) : MState :=
  let s1 := {s with inMotion := false}
  let s2 :=
    match s1.motionCommandQueue with
    | command :: rest => rc {s1 with motionCommandQueue := rest} command
    | [] => s1
  {s2 with simulationTimeoutId := none, jogSimulationTimeoutId := none}

noncomputable def simulateLinearMotionWith (rc : RC) (s : MState)
    (startVec stepVec : JVec3) (stepDistance totalDistance : JNum)
    (isJog : Bool) : MState :=
  let s1 := {s with pos := ⟨jadd s.pos.x stepVec.x, jadd s.pos.y stepVec.y,
    jadd s.pos.z stepVec.z⟩}
  let distanceTravelled := jsqrt (jadd (jadd
    (jsq (jsub s1.pos.x startVec.x))
    (jsq (jsub s1.pos.y startVec.y)))
    (jsq (jsub s1.pos.z startVec.z)))
  if s1.motionSimulationEnabled then
    if jlt distanceTravelled (jsub totalDistance stepDistance) then
      let sched := scheduleTimeout s1
        (SimCont.linear startVec stepVec stepDistance totalDistance isJog)
      setSimulationTimeoutId sched.1 sched.2 isJog
    else endMotionWith rc s1
  else s1

noncomputable def beginLinearMotionSimulationWith (rc : RC) (s : MState)
    (motionVec : PartialVec3) (isJog : Bool) (feedrateParam : Option JNum)
    (distanceModeParam : Option DistanceMode) : MState :=
  let feedrate : Option JNum :=
    match feedrateParam with
    | none => s.feedrate
    | some v => some v
  let distanceMode := distanceModeParam.getD s.distanceMode
  let mvx : JNum :=
    match distanceMode, motionVec.x with
    | .Abs, some a => jsub (jsArgToJNum a) s.pos.x
    | .Abs, none => some 0
    | .Inc, some a => jsArgToJNum a
    | .Inc, none => some 0
  let mvy : JNum :=
    match distanceMode, motionVec.y with
    | .Abs, some a => jsub (jsArgToJNum a) s.pos.y
    | .Abs, none => some 0
    | .Inc, some a => jsArgToJNum a
    | .Inc, none => some 0
  let mvz : JNum :=
    match distanceMode, motionVec.z with
    | .Abs, some a => jsub (jsArgToJNum a) s.pos.z
    | .Abs, none => some 0
    | .Inc, some a => jsArgToJNum a
    | .Inc, none => some 0
  let totalDistance := jsqrt (jadd (jadd (jsq mvx) (jsq mvy)) (jsq mvz))
  if jgt totalDistance 0 then
    let feedratePerMs := jdiv (feedrate.getD none) 60000
    let axesFeedrate : JVec3 := ⟨jmul (jdiv mvx totalDistance) feedratePerMs,
      jmul (jdiv mvy totalDistance) feedratePerMs,
      jmul (jdiv mvz totalDistance) feedratePerMs⟩
    let stepVec : JVec3 := ⟨jmul axesFeedrate.x SIMULATION_UPDATE_INTERVAL_MS,
      jmul axesFeedrate.y SIMULATION_UPDATE_INTERVAL_MS,
      jmul axesFeedrate.z SIMULATION_UPDATE_INTERVAL_MS⟩
    let stepDistance := jsqrt (jadd (jadd (jsq stepVec.x) (jsq stepVec.y)) (jsq stepVec.z))
    simulateLinearMotionWith rc s ⟨s.pos.x, s.pos.y, s.pos.z⟩ stepVec stepDistance
      totalDistance isJog
  else s

noncomputable def simulateArcMotionWith (rc : RC) (s : MState)
    (currentPosVec : JVec2) (totalDistance distanceTravelled : JNum)
    (isClockwise : Bool) (arcCenter : JVec2)
    (angleOfRotation arcStepLength : JNum) : MState :=
  let xOffset := jsub s.pos.x arcCenter.x
  let yOffset := jsub s.pos.y arcCenter.y
  let angle0 := jatan2 yOffset xOffset
  let mag := jsqrt (jadd (jsq xOffset) (jsq yOffset))
  let angle := if isClockwise then jsub angle0 angleOfRotation
    else jadd angle0 angleOfRotation
  let xInc := jmul (jcos angle) mag
  let yInc := jmul (jsin angle) mag
  let s1 := {s with pos := ⟨jadd arcCenter.x xInc, jadd arcCenter.y yInc, s.pos.z⟩}
  let distanceTravelled1 := jadd distanceTravelled arcStepLength
  if s1.motionSimulationEnabled then
    if jle distanceTravelled1 (jsub totalDistance arcStepLength) then
      let sched := scheduleTimeout s1 (SimCont.arc currentPosVec totalDistance
        distanceTravelled1 isClockwise arcCenter angleOfRotation arcStepLength)
      {sched.1 with simulationTimeoutId := some sched.2}
    else endMotionWith rc s1
  else s1

noncomputable def beginCenterArcMotionSimulationWith (rc : RC) (s : MState)
    (targetPosVec : JVec2) (isClockwise : Bool) (arcCenter : JVec2) : MState :=
  let radius := jsqrt (jadd (jsq (jsub targetPosVec.x arcCenter.x))
    (jsq (jsub targetPosVec.y arcCenter.y)))
  let circum := circumference radius
  let totalDistance0 := arcLength ⟨s.pos.x, s.pos.y⟩ ⟨targetPosVec.x, targetPosVec.y⟩ arcCenter
  let totalDistance := if isClockwise then totalDistance0 else jsub circum totalDistance0
  let arcStepLength := jmul SIMULATION_UPDATE_INTERVAL_MS
    (jdiv (s.feedrate.getD none) 60000)
  let angleOfRotation := jdiv (jmul (jmul jpi 2) arcStepLength) circum
  simulateArcMotionWith rc s ⟨s.pos.x, s.pos.y⟩ totalDistance 0 isClockwise
    arcCenter angleOfRotation arcStepLength

/-- The center resolution of `#beginRadiusArcMotionSimulation` (source
lines computing `centerDispScaleFactor`, `centerX`, `centerY`), factored
out so the resolved center can be stated on its own. -/
noncomputable def radiusArcCenter (posX posY targetX targetY : JNum)
    (isClockwise : Bool) (arcRadius : JNum) : JVec2 :=
  let tvx := jsub targetX posX
  let tvy := jsub targetY posY
  let centerDispSquared := jsub (jsub (jmul 4 (jsq arcRadius)) (jsq tvx)) (jsq tvy)
  let f0 := jneg (jdiv (jsqrt centerDispSquared) (jsqrt (jadd (jsq tvx) (jsq tvy))))
  let f1 := if !isClockwise then jneg f0 else f0
  let f2 := if jlt arcRadius 0 then jneg f1 else f1
  ⟨jadd posX (jmul (jn 0.5) (jsub tvx (jmul tvy f2))),
   jadd posY (jmul (jn 0.5) (jadd tvy (jmul tvx f2)))⟩

noncomputable def beginRadiusArcMotionSimulationWith (rc : RC) (s : MState)
    (targetPosVec : JVec2) (isClockwise : Bool) (arcRadius : JNum) : MState :=
  if jeq targetPosVec.x s.pos.x && jeq targetPosVec.y s.pos.y then s
  else
    let tvx := jsub targetPosVec.x s.pos.x
    let tvy := jsub targetPosVec.y s.pos.y
    let centerDispSquared := jsub (jsub (jmul 4 (jsq arcRadius)) (jsq tvx)) (jsq tvy)
    if jge centerDispSquared 0 then
      beginCenterArcMotionSimulationWith rc s targetPosVec isClockwise
        (radiusArcCenter s.pos.x s.pos.y targetPosVec.x targetPosVec.y isClockwise arcRadius)
    else s

noncomputable def beginArcMotionSimulationWith (rc : RC) (s : MState)
    (positionVec : PartialVec3) (isClockwise : Bool) (arcRadius : Option JsArg)
    (arcCenter : PartialVec2) : MState :=
  match positionVec.x, positionVec.y with
  | some ax, some ay =>
    let px : JNum :=
      if s.distanceMode = .Inc then jadd (jsArgToJNum ax) s.pos.x else jsArgToJNum ax
    let py : JNum :=
      if s.distanceMode = .Inc then jadd (jsArgToJNum ay) s.pos.y else jsArgToJNum ay
    match arcRadius with
    | some r => beginRadiusArcMotionSimulationWith rc s ⟨px, py⟩ isClockwise (jsArgToJNum r)
    | none =>
      match arcCenter.x, arcCenter.y with
      | some cx0, some cy0 =>
        let cx : JNum :=
          if s.arcCenterDistanceMode = .Inc then jadd (jsArgToJNum cx0) s.pos.x
          else jsArgToJNum cx0
        let cy : JNum :=
          if s.arcCenterDistanceMode = .Inc then jadd (jsArgToJNum cy0) s.pos.y
          else jsArgToJNum cy0
        beginCenterArcMotionSimulationWith rc s ⟨px, py⟩ isClockwise ⟨cx, cy⟩
      | _, _ => s
  | _, _ => s

noncomputable def registerMotionWith (rc : RC) (s : MState)
    (motionVec : PartialVec3) (arcRadius : Option JsArg)
    (arcCenter : PartialVec2) : MState :=
  let s1 := {s with inMotion := true}
  match s1.motionMode with
  | .Rapid => s1
  | .Linear => beginLinearMotionSimulationWith rc s1 motionVec false none none
  | .ClockwiseArc => beginArcMotionSimulationWith rc s1 motionVec true arcRadius arcCenter
  | .CounterClockwiseArc => beginArcMotionSimulationWith rc s1 motionVec false arcRadius arcCenter

/-! ## Realtime, jog, and top-level command dispatch -/

def clearQueuedJogCommands (s : MState) : MState :=
  {s with motionCommandQueue := (s.motionCommandQueue.filter
    (fun command => !(JOG_COMMAND_MARK.isPrefixOf (decodeBytes command))))}

def registerRealtimeCommand (s : MState) (command : ℕ) : MState :=
  if command = CANCEL_JOG_COMMAND then
    let s1 :=
      match s.jogSimulationTimeoutId with
      | some timeoutId =>
        {clearTimeoutById {s with inMotion := false} timeoutId with
          jogSimulationTimeoutId := none}
      | none => s
    clearQueuedJogCommands s1
  else s

noncomputable def registerJogCommandWith (rc : RC) (s : MState)
    (command : List ℕ) : MState :=
  let commandText := decodeBytes command
  let commandWords := parseCommand (commandText.drop 3)
  let acc := commandWords.foldl processJogWord
    ⟨s.distanceMode, s.unitMode, s.feedrate, {}⟩
  if s.motionSimulationEnabled then
    if s.inMotion then
      {s with motionCommandQueue := s.motionCommandQueue ++ [command]}
    else
      beginLinearMotionSimulationWith rc {s with inMotion := true}
        acc.jogMotionVec true acc.jogFeedrate (some acc.jogDistanceMode)
  else s

noncomputable def registerSystemCommandWith (rc : RC) (s : MState)
    (command : List ℕ) : MState :=
  if JOG_COMMAND_MARK.isPrefixOf (decodeBytes command) then
    registerJogCommandWith rc s command
  else s

noncomputable def registerCommandWith (rc : RC) (s : MState)
    (command : List ℕ) : MState :=
  let commandText := decodeBytes command
  if ['$'].isPrefixOf commandText then
    registerSystemCommandWith rc (pushBufferLine s command) command
  else if isRealtimeCommand command then
    registerRealtimeCommand s (command.headD 0)
  else
    let s1 := pushBufferLine s command
    let acc := (parseCommand commandText).foldl processCommandWord
      ⟨s1, {}, false, none, {}⟩
    if acc.isMotionCommand && acc.s.motionSimulationEnabled then
      if acc.s.inMotion then
        {acc.s with motionCommandQueue := acc.s.motionCommandQueue ++ [command]}
      else
        registerMotionWith rc acc.s acc.motionVec acc.arcRadius acc.arcCenter
    else acc.s

noncomputable def registerCommandF : ℕ → MState → List ℕ → MState
  | 0, s, _ => s
  | fuel + 1, s, command => registerCommandWith (registerCommandF fuel) s command

/-- `registerCommand` with always-sufficient fuel: every `#endMotion`
re-dispatch consumes one queued command, so the queue length bounds the
recursion depth. -/
noncomputable def MState.register (s : MState) (command : List ℕ) : MState :=
  registerCommandF (s.motionCommandQueue.length + 1) s command

noncomputable def runSimCont (rc : RC) (s : MState) : SimCont → MState
  | .linear startVec stepVec stepDistance totalDistance isJog =>
    simulateLinearMotionWith rc s startVec stepVec stepDistance totalDistance isJog
  | .arc currentPosVec totalDistance distanceTravelled isClockwise arcCenter
      angleOfRotation arcStepLength =>
    simulateArcMotionWith rc s currentPosVec totalDistance distanceTravelled
      isClockwise arcCenter angleOfRotation arcStepLength

/-- A timer-fire event: run the oldest pending `setTimeout` callback, if
any. -/
noncomputable def MState.tick (s : MState) : MState :=
  match s.pending with
  | [] => s
  | (_, c) :: rest =>
    runSimCont (registerCommandF (s.motionCommandQueue.length + 1))
      {s with pending := rest} c

def toggleMotionSimulation (s : MState) : MState :=
  if s.motionSimulationEnabled then
    {s with inMotion := false, motionCommandQueue := [],
            simulationTimeoutId := none, jogSimulationTimeoutId := none,
            motionSimulationEnabled := false}
  else {s with motionSimulationEnabled := true}

/-! ## Event sequences -/

inductive Ev
  | command (bytes : List ℕ)
  | message (m : Msg)
  | timerFire
  | toggleSim

noncomputable def applyEv (s : MState) : Ev → MState
  | .command bytes => s.register bytes
  | .message m => registerMessage s m
  | .timerFire => s.tick
  | .toggleSim => toggleMotionSimulation s

noncomputable def applyEvs (s : MState) (evs : List Ev) : MState :=
  evs.foldl applyEv s

/-! ## Derived notions used in the statements -/

/-- The sum of the entries currently in the command buffer ledger. -/
def ledgerSum (s : MState) : ℤ :=
  (s.bufferLineCharCounts.map (fun (n : ℕ) => (n : ℤ))).sum

/-- The ledger invariant: the running character total equals the sum of
the ledger entries. -/
def LedgerInv (s : MState) : Prop :=
  s.numOfCharsInBuffer = ledgerSum s

/-- A word whose letter is an axis letter X, Y or Z — the words that make
`registerCommand` set `isMotionCommand`. -/
def isAxisWord (w : Word) : Bool :=
  if w.1 = ['X'] then true
  else if w.1 = ['Y'] then true
  else if w.1 = ['Z'] then true
  else false

/-- A command that `registerCommand` treats as a jog command, or as a
standard command carrying at least one axis word (the commands that reach
the motion-dispatch check). -/
def isMotionOrJogCommand (c : List ℕ) : Bool :=
  JOG_COMMAND_MARK.isPrefixOf (decodeBytes c) ||
    (!(['$'].isPrefixOf (decodeBytes c)) && !isRealtimeCommand c &&
      (parseCommand (decodeBytes c)).any isAxisWord)

/-- A state whose pending timer holds a linear simulation step of `(1, 0, 0)`
toward a total distance 3, as set up by the status-report drift scenario. -/
noncomputable def driftState : MState :=
  {MState.initial with
    motionSimulationEnabled := true
    inMotion := true
    simulationTimeoutId := some 0
    nextTimeoutId := 1
    pending := [(0, SimCont.linear ⟨some 0, some 0, some 0⟩
      ⟨some 1, some 0, some 0⟩ (some 1) (some 3) false)]}

/-- A ledger state holding the entries 2 (pushed first) and 9 (pushed
last), with running total 11. -/
noncomputable def twoEntryLedgerState : MState :=
  {MState.initial with bufferLineCharCounts := [2, 9], numOfCharsInBuffer := 11}

/-- A ledger state holding the entries 3 (pushed first) and 4 (pushed
last), with running total 7. -/
noncomputable def smallLedgerState : MState :=
  {MState.initial with bufferLineCharCounts := [3, 4], numOfCharsInBuffer := 7}

/-- A machine state whose persistent distance mode is Incremental. -/
noncomputable def incDistanceState : MState :=
  {MState.initial with distanceMode := .Inc}

/-- The initial state with motion simulation enabled and no motion in
flight. -/
noncomputable def simReadyState : MState :=
  {MState.initial with motionSimulationEnabled := true}

/-- A stuck state: the in-motion flag is set but no simulation tick is
pending. -/
noncomputable def stuckState : MState :=
  {MState.initial with motionSimulationEnabled := true, inMotion := true}

/-- The stuck state left by registering `G1 X0` from `simReadyState`. -/
noncomputable def stuckZeroDelta : MState :=
  {MState.initial with
    motionSimulationEnabled := true
    inMotion := true
    bufferLineCharCounts := [5]
    numOfCharsInBuffer := 5}

/-- The stuck state left by registering `G2 X0 Y0 R5` from
`simReadyState`. -/
noncomputable def stuckDegenArc : MState :=
  {MState.initial with
    motionSimulationEnabled := true
    inMotion := true
    motionMode := .ClockwiseArc
    bufferLineCharCounts := [11]
    numOfCharsInBuffer := 11}

/-- The stuck state left by registering `G2 X10 Y0 R1` from
`simReadyState`. -/
noncomputable def stuckNegDisc : MState :=
  {MState.initial with
    motionSimulationEnabled := true
    inMotion := true
    motionMode := .ClockwiseArc
    bufferLineCharCounts := [12]
    numOfCharsInBuffer := 12}

/-- A state with one queued jog command and one queued ordinary motion
command while a motion is in flight. -/
noncomputable def jogOrdQueueState : MState :=
  {MState.initial with
    motionSimulationEnabled := true
    inMotion := true
    motionCommandQueue := [encodeChars "$J=G91 X1 F300".data,
      encodeChars "G1 X5".data]}

/-- A state with an ordinary linear motion one tick from completion
(pending step `(1, 0, 0)`, step distance 1, total distance 2, position
`(1, 0, 0)`) and feed rate 2400 units/min (1 unit per 25 ms tick). -/
noncomputable def nearDoneMotionState : MState :=
  {MState.initial with
    pos := ⟨some 1, some 0, some 0⟩
    feedrate := some (some 2400)
    motionSimulationEnabled := true
    inMotion := true
    simulationTimeoutId := some 0
    pending := [(0, SimCont.linear ⟨some 0, some 0, some 0⟩
      ⟨some 1, some 0, some 0⟩ (some 1) (some 2) false)]
    nextTimeoutId := 1}

/-- The state after the standard motion command `G1 X5` arrives in
`nearDoneMotionState`: its length pushed onto the ledger once and the
command queued. -/
noncomputable def queuedMotionState : MState :=
  {nearDoneMotionState with
    bufferLineCharCounts := [5]
    numOfCharsInBuffer := 5
    motionCommandQueue := [encodeChars "G1 X5".data]}

/-- The intermediate state of the completing tick: position advanced to
`(2, 0, 0)` and the pending tick consumed, before `#endMotion` runs. -/
noncomputable def midTickState : MState :=
  {queuedMotionState with pending := [], pos := ⟨some 2, some 0, some 0⟩}

/-- The intermediate state inside the queue drain: the queued command has
been re-pushed onto the ledger (the double count) and its motion
re-dispatched. -/
noncomputable def drainInnerState : MState :=
  {midTickState with
    motionCommandQueue := []
    inMotion := true
    bufferLineCharCounts := [5, 5]
    numOfCharsInBuffer := 10}

/-- The state at the end of the completing tick: the drained motion has
taken its first synchronous step and scheduled a follow-up tick, whose
timeout id the outer `#endMotion` then wiped. -/
noncomputable def drain1State : MState :=
  {drainInnerState with
    pos := ⟨some 3, some 0, some 0⟩
    pending := [(1, SimCont.linear ⟨some 2, some 0, some 0⟩
      ⟨some 1, some 0, some 0⟩ (some 1) (some 3) false)]
    nextTimeoutId := 2
    simulationTimeoutId := none}

/-- The final state after the drained motion's last tick completes. -/
noncomputable def drainedMotionState : MState :=
  {drain1State with
    pos := ⟨some 4, some 0, some 0⟩
    pending := []
    inMotion := false}

/-- The machine at the origin with simulation enabled and a feed rate of
6000 units/min already set (2.5 units per 25 ms tick). -/
noncomputable def linearStartState : MState :=
  {MState.initial with
    motionSimulationEnabled := true
    feedrate := some (some 6000)}
/-- The state at the moment `G1 X10 Y0 Z0` (12 bytes) is dispatched to
the motion simulator: length pushed onto the ledger, in-motion set. -/
noncomputable def linearDispatchState : MState :=
  {linearStartState with
    bufferLineCharCounts := [12]
    numOfCharsInBuffer := 12
    inMotion := true}
/-- After the synchronous first simulation step: position `(2.5, 0, 0)`
with the follow-up tick scheduled. -/
noncomputable def linearRun1 : MState :=
  {linearDispatchState with
    pos := ⟨some 2.5, some 0, some 0⟩
    pending := [(0, SimCont.linear ⟨some 0, some 0, some 0⟩
      ⟨some 2.5, some 0, some 0⟩ (some 2.5) (some 10) false)]
    nextTimeoutId := 1
    simulationTimeoutId := some 0}
/-- After the first timer tick: position `(5, 0, 0)`. -/
noncomputable def linearRun2 : MState :=
  {linearRun1 with
    pos := ⟨some 5, some 0, some 0⟩
    pending := [(1, SimCont.linear ⟨some 0, some 0, some 0⟩
      ⟨some 2.5, some 0, some 0⟩ (some 2.5) (some 10) false)]
    nextTimeoutId := 2
    simulationTimeoutId := some 1}
/-- After the final timer tick: position `(7.5, 0, 0)`, motion ended
(the remaining 2.5 to the target is under one step, so the loop stops). -/
noncomputable def linearRun3 : MState :=
  {linearRun2 with
    pos := ⟨some 7.5, some 0, some 0⟩
    pending := []
    inMotion := false
    simulationTimeoutId := none}
/-! # Theorems -/

@[simp] theorem jadd_some (x y : ℝ) : jadd (some x) (some y) = some (x + y) := rfl

@[simp] theorem jsub_some (x y : ℝ) : jsub (some x) (some y) = some (x - y) := rfl

@[simp] theorem jmul_some (x y : ℝ) : jmul (some x) (some y) = some (x * y) := rfl

@[simp] theorem jneg_some (x : ℝ) : jneg (some x) = some (-x) := rfl

@[simp] theorem jsq_some (x : ℝ) : jsq (some x) = some (x * x) := rfl

@[simp] theorem jlt_some (x y : ℝ) : jlt (some x) (some y) = decide (x < y) := rfl

@[simp] theorem jle_some (x y : ℝ) : jle (some x) (some y) = decide (x ≤ y) := rfl

@[simp] theorem jgt_some (x y : ℝ) : jgt (some x) (some y) = decide (y < x) := rfl

@[simp] theorem jge_some (x y : ℝ) : jge (some x) (some y) = decide (y ≤ x) := rfl

@[simp] theorem jeq_some (x y : ℝ) : jeq (some x) (some y) = decide (x = y) := rfl

@[simp] theorem jdiv_some (x y : ℝ) (h : y ≠ 0) :
    jdiv (some x) (some y) = some (x / y) := by
  simp [jdiv, h]

@[simp] theorem jsqrt_some (x : ℝ) (h : 0 ≤ x) :
    jsqrt (some x) = some (Real.sqrt x) := by
  simp [jsqrt, not_lt.mpr h]

theorem jnum_ofNat (n : ℕ) [OfNat ℝ n] :
    (OfNat.ofNat n : JNum) = some (OfNat.ofNat n : ℝ) := rfl

/-- Evaluation helper for concrete square roots. -/
theorem real_sqrt_eval (a b : ℝ) (hb : 0 ≤ b) (h : b * b = a) :
    Real.sqrt a = b := by
  rw [← h]
  exact Real.sqrt_mul_self hb

/-- Characterization of the recognized realtime byte sequences. -/
theorem isRealtimeCommand_iff (command : List ℕ) :
    isRealtimeCommand command = true ↔ command = [0x3F] ∨ command = [0x85] := by
  match command with
  | [] => simp [isRealtimeCommand]
  | [b] =>
    simp [isRealtimeCommand, REALTIME_COMMANDS, STATUS_REPORT_QUERY_COMMAND,
      CANCEL_JOG_COMMAND]
  | b1 :: b2 :: rest =>
    simp [isRealtimeCommand]

/-- Claim C1: for every command byte sequence of length at least 1,
`commandWillOverflowBuffer` returns true iff the command is not a
recognized single-byte realtime command (`0x3F` or `0x85`) and the ledger
running total plus the command's byte length is at least 128; for a
recognized realtime byte it returns false regardless of the total. -/
theorem commandWillOverflowBuffer_spec (s : MState) (command : List ℕ)
    (_hlen : 1 ≤ command.length) :
    (commandWillOverflowBuffer s command = true ↔
      (¬(command = [0x3F] ∨ command = [0x85]) ∧
        128 ≤ s.numOfCharsInBuffer + command.length)) ∧
    (∀ b : ℕ, b = 0x3F ∨ b = 0x85 →
      commandWillOverflowBuffer s [b] = false) := by
  constructor
  · simp only [commandWillOverflowBuffer, Bool.and_eq_true, Bool.not_eq_true',
      decide_eq_true_eq, CHAR_BUFFER_LIMIT]
    rw [show isRealtimeCommand command = false ↔
        ¬isRealtimeCommand command = true by simp, isRealtimeCommand_iff]
  · rintro b (rfl | rfl) <;>
      simp [commandWillOverflowBuffer, isRealtimeCommand, REALTIME_COMMANDS,
        STATUS_REPORT_QUERY_COMMAND, CANCEL_JOG_COMMAND]

/-- Witness for C1: concrete instantiations of both conjuncts. -/
theorem commandWillOverflowBuffer_spec_witness :
    commandWillOverflowBuffer MState.initial [0x3F] = false :=
  (commandWillOverflowBuffer_spec MState.initial [0x3F] (by simp)).2 0x3F (Or.inl rfl)

/-- Counterexample to C3 as stated: with ledger `[2, 9]` (2 pushed first,
so 2 is the oldest entry) and running total 11, an `ok` message leaves
`[2]` and total `2` — the code removed the newest entry 9 and decreased
the total by 9, not by the oldest entry's length 2 as the claim states. -/
theorem registerMessage_fifo_counterexample :
    (registerMessage twoEntryLedgerState
      ⟨true, false, false, none, none⟩).bufferLineCharCounts = [2] ∧
    (registerMessage twoEntryLedgerState
      ⟨true, false, false, none, none⟩).numOfCharsInBuffer = 2 ∧
    ((2 : ℤ) ≠ 11 - 2) := by
  refine ⟨?_, ?_, by decide⟩ <;> rfl

/-- Claim C3 (amended): for every non-empty ledger state, registering a
message that starts with `ok` or `error` removes the newest (last-pushed,
LIFO) entry from the ledger and decreases the running total by exactly
that entry's length. -/
theorem registerMessage_pops_newest (s : MState) (m : Msg) (l : List ℕ) (n : ℕ)
    (hm : (m.startsOk || m.startsError) = true)
    (hl : s.bufferLineCharCounts = l ++ [n]) :
    (registerMessage s m).bufferLineCharCounts = l ∧
    (registerMessage s m).numOfCharsInBuffer = s.numOfCharsInBuffer - n := by
  simp [registerMessage, hm, popBufferLine, hl, List.getLast?_concat,
    List.dropLast_concat, Option.getD_some]

/-- Witness for the amended C3. -/
theorem registerMessage_pops_newest_witness :
    (registerMessage smallLedgerState
      ⟨false, true, false, none, none⟩).bufferLineCharCounts = [3] ∧
    (registerMessage smallLedgerState
      ⟨false, true, false, none, none⟩).numOfCharsInBuffer =
      smallLedgerState.numOfCharsInBuffer - 4 :=
  registerMessage_pops_newest _ _ [3] 4 rfl rfl

/-- Counterexample to C5 as stated: registering the standard line `G90`
on a machine in Incremental distance mode leaves the distance mode
Incremental — the standard-line path's `#registerGCode` only handles
G0/G1/G2/G3, so `G90` does not set DistanceMode to Absolute as the claim
states (likewise G20/G21/G91 are ignored outside jog lines). -/
theorem registerCommand_g90_counterexample :
    (incDistanceState.register (encodeChars "G90".data)).distanceMode =
      DistanceMode.Inc ∧
    DistanceMode.Inc ≠ DistanceMode.Abs := by
  exact ⟨rfl, by decide⟩

/-- Claim C5 (amended): on a standard (non-system, non-realtime) command
line, the recognized G words G0/G00, G1/G01, G2/G02, G3/G03 set the modal
motion mode to Rapid, Linear, ArcCW, ArcCCW respectively; the words
G20/G21 and G90/G91 are not recognized by the standard-line path and
leave the persistent unit mode and distance mode unchanged (they are
recognized only locally inside jog lines). -/
theorem registerCommand_modal_g_words (s : MState) :
    (s.register (encodeChars "G0".data)).motionMode = MotionMode.Rapid ∧
    (s.register (encodeChars "G00".data)).motionMode = MotionMode.Rapid ∧
    (s.register (encodeChars "G1".data)).motionMode = MotionMode.Linear ∧
    (s.register (encodeChars "G01".data)).motionMode = MotionMode.Linear ∧
    (s.register (encodeChars "G2".data)).motionMode = MotionMode.ClockwiseArc ∧
    (s.register (encodeChars "G02".data)).motionMode = MotionMode.ClockwiseArc ∧
    (s.register (encodeChars "G3".data)).motionMode = MotionMode.CounterClockwiseArc ∧
    (s.register (encodeChars "G03".data)).motionMode = MotionMode.CounterClockwiseArc ∧
    (s.register (encodeChars "G20".data)).unitMode = s.unitMode ∧
    (s.register (encodeChars "G21".data)).unitMode = s.unitMode ∧
    (s.register (encodeChars "G90".data)).distanceMode = s.distanceMode ∧
    (s.register (encodeChars "G91".data)).distanceMode = s.distanceMode := by
  exact ⟨rfl, rfl, rfl, rfl, rfl, rfl, rfl, rfl, rfl, rfl, rfl, rfl⟩

theorem applyStateToken_pos (s : MState) (tok : Option (List Char)) :
    (applyStateToken s tok).pos = s.pos := by
  rcases tok with _ | t
  · rfl
  · simp only [applyStateToken]
    split_ifs <;> rfl

/-- Claim C4: a message classified as a status report carrying a
machine-position triple sets the position exactly to the reported triple,
for every prior machine state; in particular, after a simulated tick has
moved the position to `(1, 0, 0)`, a status report of `(5, 5, 5)` makes
the position exactly `(5, 5, 5)`, discarding the simulator drift. -/
theorem registerMessage_status_overrides (s : MState) (x y z : ℝ)
    (tok : Option (List Char)) :
    (registerMessage s ⟨false, false, true, some (x, y, z), tok⟩).pos =
      ⟨some x, some y, some z⟩ ∧
    driftState.tick.pos = ⟨some 1, some 0, some 0⟩ ∧
    (registerMessage driftState.tick
      ⟨false, false, true, some (5, 5, 5), none⟩).pos =
      ⟨some 5, some 5, some 5⟩ := by
  refine ⟨?_, ?_, ?_⟩
  · rw [show (registerMessage s ⟨false, false, true, some (x, y, z), tok⟩) =
        applyStateToken {s with pos := ⟨some x, some y, some z⟩} tok from rfl]
    rw [applyStateToken_pos]
  · norm_num [MState.tick, driftState, MState.initial, runSimCont,
      simulateLinearMotionWith, scheduleTimeout, setSimulationTimeoutId,
      jadd, jsub, jsq, jmul, jsqrt, jlt, registerCommandF,
      decide_eq_true_eq, Real.sqrt_one]
  · norm_num [MState.tick, driftState, MState.initial, runSimCont,
      simulateLinearMotionWith, scheduleTimeout, setSimulationTimeoutId,
      jadd, jsub, jsq, jmul, jsqrt, jlt, registerCommandF,
      decide_eq_true_eq, Real.sqrt_one, registerMessage, registerStatusReport,
      applyStateToken_pos]

/-- Claim C8: for every machine state, registering the cancel-jog
realtime byte `0x85` leaves the Motion Command Queue equal to its
filtering by "does not start with the jog prefix": exactly the
jog-prefixed entries are removed, every other entry is retained, and the
relative order of the retained entries is preserved. -/
theorem cancel_jog_purges_only_jogs (s : MState) :
    ((s.register [0x85]).motionCommandQueue = s.motionCommandQueue.filter
      (fun c => !(JOG_COMMAND_MARK.isPrefixOf (decodeBytes c)))) ∧
    (∀ c, c ∈ s.motionCommandQueue →
      JOG_COMMAND_MARK.isPrefixOf (decodeBytes c) = false →
      c ∈ (s.register [0x85]).motionCommandQueue) ∧
    (∀ c, c ∈ (s.register [0x85]).motionCommandQueue →
      c ∈ s.motionCommandQueue ∧
      JOG_COMMAND_MARK.isPrefixOf (decodeBytes c) = false) ∧
    (s.register [0x85]).motionCommandQueue.Sublist s.motionCommandQueue := by
  have h1 : (s.register [0x85]).motionCommandQueue = s.motionCommandQueue.filter
      (fun c => !(JOG_COMMAND_MARK.isPrefixOf (decodeBytes c))) := by
    show (registerRealtimeCommand s 0x85).motionCommandQueue = _
    unfold registerRealtimeCommand
    cases hj : s.jogSimulationTimeoutId <;> simp [hj, CANCEL_JOG_COMMAND,
      clearQueuedJogCommands, clearTimeoutById]
  refine ⟨h1, ?_, ?_, ?_⟩
  · intro c hc hcjog
    rw [h1]
    exact List.mem_filter.mpr ⟨hc, by simp [hcjog]⟩
  · intro c hc
    rw [h1] at hc
    have h2 := List.mem_filter.mp hc
    exact ⟨h2.1, by simpa using h2.2⟩
  · rw [h1]
    exact List.filter_sublist _

/-- Witness for C8: in a state with one queued jog command and one queued
ordinary motion command, the ordinary motion survives the cancel-jog. -/
theorem cancel_jog_purges_only_jogs_witness :
    encodeChars "G1 X5".data ∈
      (jogOrdQueueState.register [0x85]).motionCommandQueue :=
  (cancel_jog_purges_only_jogs jogOrdQueueState).2.1 (encodeChars "G1 X5".data)
    (by simp [jogOrdQueueState]) (by rfl)

/-! ## Preservation of the ledger invariant -/

/-- The property that a re-dispatch entry point preserves the ledger
invariant. -/
def PreservesInv (rc : RC) : Prop :=
  ∀ s c, LedgerInv s → LedgerInv (rc s c)

theorem sumZ_concat (l : List ℕ) (n : ℕ) :
    ((l ++ [n]).map (fun (k : ℕ) => (k : ℤ))).sum =
      (l.map (fun (k : ℕ) => (k : ℤ))).sum + n := by
  simp

theorem ledgerInv_pushBufferLine (s : MState) (c : List ℕ)
    (hs : LedgerInv s) : LedgerInv (pushBufferLine s c) := by
  simp only [LedgerInv, ledgerSum] at hs
  show s.numOfCharsInBuffer + (c.length : ℤ) =
    ((s.bufferLineCharCounts ++ [c.length]).map (fun (k : ℕ) => (k : ℤ))).sum
  rw [sumZ_concat, ← hs]

theorem ledgerInv_popBufferLine (s : MState) (hs : LedgerInv s) :
    LedgerInv (popBufferLine s) := by
  simp only [LedgerInv, ledgerSum] at hs
  rcases List.eq_nil_or_concat s.bufferLineCharCounts with h | ⟨l, n, h⟩
  · simp only [LedgerInv, ledgerSum, popBufferLine, h, List.getLast?_nil,
      List.dropLast_nil, Option.getD_none, List.map_nil, List.sum_nil] at *
    omega
  · rw [List.concat_eq_append] at h
    rw [h, sumZ_concat] at hs
    simp only [LedgerInv, ledgerSum, popBufferLine, h, List.getLast?_concat,
      List.dropLast_concat, Option.getD_some]
    omega

theorem processCommandWord_fields (acc : CmdAcc) (w : Word) :
    (processCommandWord acc w).s.numOfCharsInBuffer = acc.s.numOfCharsInBuffer ∧
    (processCommandWord acc w).s.bufferLineCharCounts = acc.s.bufferLineCharCounts ∧
    (processCommandWord acc w).s.pos = acc.s.pos ∧
    (processCommandWord acc w).s.inMotion = acc.s.inMotion ∧
    (processCommandWord acc w).s.pending = acc.s.pending ∧
    (processCommandWord acc w).s.motionCommandQueue = acc.s.motionCommandQueue ∧
    (processCommandWord acc w).s.motionSimulationEnabled =
      acc.s.motionSimulationEnabled := by
  simp only [processCommandWord, registerGCode]
  (repeat' split) <;> exact ⟨rfl, rfl, rfl, rfl, rfl, rfl, rfl⟩

theorem foldl_processCommandWord_fields (ws : List Word) (acc : CmdAcc) :
    (ws.foldl processCommandWord acc).s.numOfCharsInBuffer =
      acc.s.numOfCharsInBuffer ∧
    (ws.foldl processCommandWord acc).s.bufferLineCharCounts =
      acc.s.bufferLineCharCounts ∧
    (ws.foldl processCommandWord acc).s.pos = acc.s.pos ∧
    (ws.foldl processCommandWord acc).s.inMotion = acc.s.inMotion ∧
    (ws.foldl processCommandWord acc).s.pending = acc.s.pending ∧
    (ws.foldl processCommandWord acc).s.motionCommandQueue =
      acc.s.motionCommandQueue ∧
    (ws.foldl processCommandWord acc).s.motionSimulationEnabled =
      acc.s.motionSimulationEnabled := by
  induction ws generalizing acc with
  | nil => exact ⟨rfl, rfl, rfl, rfl, rfl, rfl, rfl⟩
  | cons w ws ih =>
    simp only [List.foldl_cons]
    obtain ⟨a1, a2, a3, a4, a5, a6, a7⟩ := processCommandWord_fields acc w
    obtain ⟨b1, b2, b3, b4, b5, b6, b7⟩ := ih (processCommandWord acc w)
    exact ⟨b1.trans a1, b2.trans a2, b3.trans a3, b4.trans a4, b5.trans a5,
      b6.trans a6, b7.trans a7⟩

theorem ledgerInv_endMotionWith (rc : RC) (hrc : PreservesInv rc) (s : MState)
    (hs : LedgerInv s) : LedgerInv (endMotionWith rc s) := by
  simp only [endMotionWith]
  split
  · exact hrc _ _ hs
  · exact hs

theorem ledgerInv_simulateLinearMotionWith (rc : RC) (hrc : PreservesInv rc)
    (s : MState) (sv st : JVec3) (sd td : JNum) (j : Bool) (hs : LedgerInv s) :
    LedgerInv (simulateLinearMotionWith rc s sv st sd td j) := by
  simp only [simulateLinearMotionWith]
  split
  · split
    · simp only [setSimulationTimeoutId, scheduleTimeout]
      split <;> exact hs
    · exact ledgerInv_endMotionWith rc hrc _ hs
  · exact hs

theorem ledgerInv_beginLinearMotionSimulationWith (rc : RC)
    (hrc : PreservesInv rc) (s : MState) (mv : PartialVec3) (j : Bool)
    (fp : Option JNum) (dp : Option DistanceMode) (hs : LedgerInv s) :
    LedgerInv (beginLinearMotionSimulationWith rc s mv j fp dp) := by
  simp only [beginLinearMotionSimulationWith]
  split
  · exact ledgerInv_simulateLinearMotionWith rc hrc _ _ _ _ _ _ hs
  · exact hs

theorem ledgerInv_simulateArcMotionWith (rc : RC) (hrc : PreservesInv rc)
    (s : MState) (cp : JVec2) (td dt : JNum) (cw : Bool) (ac : JVec2)
    (ar asl : JNum) (hs : LedgerInv s) :
    LedgerInv (simulateArcMotionWith rc s cp td dt cw ac ar asl) := by
  simp only [simulateArcMotionWith]
  split
  · split
    · exact hs
    · exact ledgerInv_endMotionWith rc hrc _ hs
  · exact hs

theorem ledgerInv_beginCenterArcMotionSimulationWith (rc : RC)
    (hrc : PreservesInv rc) (s : MState) (tv : JVec2) (cw : Bool) (ac : JVec2)
    (hs : LedgerInv s) :
    LedgerInv (beginCenterArcMotionSimulationWith rc s tv cw ac) := by
  simp only [beginCenterArcMotionSimulationWith]
  exact ledgerInv_simulateArcMotionWith rc hrc _ _ _ _ _ _ _ _ hs

theorem ledgerInv_beginRadiusArcMotionSimulationWith (rc : RC)
    (hrc : PreservesInv rc) (s : MState) (tv : JVec2) (cw : Bool) (r : JNum)
    (hs : LedgerInv s) :
    LedgerInv (beginRadiusArcMotionSimulationWith rc s tv cw r) := by
  simp only [beginRadiusArcMotionSimulationWith]
  split
  · exact hs
  · split
    · exact ledgerInv_beginCenterArcMotionSimulationWith rc hrc _ _ _ _ hs
    · exact hs

theorem ledgerInv_beginArcMotionSimulationWith (rc : RC)
    (hrc : PreservesInv rc) (s : MState) (pv : PartialVec3) (cw : Bool)
    (r : Option JsArg) (ac : PartialVec2) (hs : LedgerInv s) :
    LedgerInv (beginArcMotionSimulationWith rc s pv cw r ac) := by
  simp only [beginArcMotionSimulationWith]
  split
  · split
    · exact ledgerInv_beginRadiusArcMotionSimulationWith rc hrc _ _ _ _ hs
    · split
      · exact ledgerInv_beginCenterArcMotionSimulationWith rc hrc _ _ _ _ hs
      · exact hs
  · exact hs

theorem ledgerInv_registerMotionWith (rc : RC) (hrc : PreservesInv rc)
    (s : MState) (mv : PartialVec3) (r : Option JsArg) (ac : PartialVec2)
    (hs : LedgerInv s) : LedgerInv (registerMotionWith rc s mv r ac) := by
  simp only [registerMotionWith]
  split
  · exact hs
  · exact ledgerInv_beginLinearMotionSimulationWith rc hrc _ _ _ _ _ hs
  · exact ledgerInv_beginArcMotionSimulationWith rc hrc _ _ _ _ _ hs
  · exact ledgerInv_beginArcMotionSimulationWith rc hrc _ _ _ _ _ hs

theorem ledgerInv_registerRealtimeCommand (s : MState) (b : ℕ)
    (hs : LedgerInv s) : LedgerInv (registerRealtimeCommand s b) := by
  simp only [registerRealtimeCommand, clearQueuedJogCommands, clearTimeoutById]
  split
  · split <;> exact hs
  · exact hs

theorem ledgerInv_registerJogCommandWith (rc : RC) (hrc : PreservesInv rc)
    (s : MState) (c : List ℕ) (hs : LedgerInv s) :
    LedgerInv (registerJogCommandWith rc s c) := by
  simp only [registerJogCommandWith]
  split
  · split
    · exact hs
    · exact ledgerInv_beginLinearMotionSimulationWith rc hrc _ _ _ _ _ hs
  · exact hs

theorem ledgerInv_registerSystemCommandWith (rc : RC) (hrc : PreservesInv rc)
    (s : MState) (c : List ℕ) (hs : LedgerInv s) :
    LedgerInv (registerSystemCommandWith rc s c) := by
  simp only [registerSystemCommandWith]
  split
  · exact ledgerInv_registerJogCommandWith rc hrc _ _ hs
  · exact hs

theorem ledgerInv_registerCommandWith (rc : RC) (hrc : PreservesInv rc)
    (s : MState) (c : List ℕ) (hs : LedgerInv s) :
    LedgerInv (registerCommandWith rc s c) := by
  simp only [registerCommandWith]
  split
  · exact ledgerInv_registerSystemCommandWith rc hrc _ _
      (ledgerInv_pushBufferLine s c hs)
  · split
    · exact ledgerInv_registerRealtimeCommand _ _ hs
    · have haccInv : LedgerInv ((parseCommand (decodeBytes c)).foldl
          processCommandWord ⟨pushBufferLine s c, {}, false, none, {}⟩).s := by
        obtain ⟨e1, e2, _⟩ := foldl_processCommandWord_fields
          (parseCommand (decodeBytes c)) ⟨pushBufferLine s c, {}, false, none, {}⟩
        have hpush := ledgerInv_pushBufferLine s c hs
        simp only [LedgerInv, ledgerSum] at *
        rw [e1, e2]
        exact hpush
      split
      · split
        · exact haccInv
        · exact ledgerInv_registerMotionWith rc hrc _ _ _ _ haccInv
      · exact haccInv

theorem ledgerInv_registerCommandF (fuel : ℕ) : PreservesInv (registerCommandF fuel) := by
  induction fuel with
  | zero => intro s c hs; exact hs
  | succ fuel ih =>
    intro s c hs
    exact ledgerInv_registerCommandWith _ ih _ _ hs

theorem ledgerInv_register (s : MState) (c : List ℕ) (hs : LedgerInv s) :
    LedgerInv (s.register c) :=
  ledgerInv_registerCommandF _ _ _ hs

theorem ledgerInv_applyStateToken (s : MState) (tok : Option (List Char))
    (hs : LedgerInv s) : LedgerInv (applyStateToken s tok) := by
  rcases tok with _ | t
  · exact hs
  · simp only [applyStateToken]
    split_ifs <;> exact hs

theorem ledgerInv_registerStatusReport (s : MState) (m : Msg)
    (hs : LedgerInv s) : LedgerInv (registerStatusReport s m) := by
  rcases m with ⟨ok, er, st, coords, tok⟩
  rcases coords with _ | ⟨x, y, z⟩ <;> exact ledgerInv_applyStateToken _ _ hs

theorem ledgerInv_registerMessage (s : MState) (m : Msg) (hs : LedgerInv s) :
    LedgerInv (registerMessage s m) := by
  simp only [registerMessage]
  split
  · exact ledgerInv_popBufferLine _ hs
  · split
    · exact ledgerInv_registerStatusReport _ _ hs
    · exact hs

theorem ledgerInv_runSimCont (rc : RC) (hrc : PreservesInv rc) (s : MState)
    (c : SimCont) (hs : LedgerInv s) : LedgerInv (runSimCont rc s c) := by
  cases c with
  | linear sv st sd td j =>
    exact ledgerInv_simulateLinearMotionWith rc hrc _ _ _ _ _ _ hs
  | arc cp td dt cw ac ar asl =>
    exact ledgerInv_simulateArcMotionWith rc hrc _ _ _ _ _ _ _ _ hs

theorem ledgerInv_tick (s : MState) (hs : LedgerInv s) : LedgerInv s.tick := by
  simp only [MState.tick]
  split
  · exact hs
  · exact ledgerInv_runSimCont _ (ledgerInv_registerCommandF _) _ _ hs

theorem ledgerInv_toggleMotionSimulation (s : MState) (hs : LedgerInv s) :
    LedgerInv (toggleMotionSimulation s) := by
  simp only [toggleMotionSimulation]
  split <;> exact hs

theorem ledgerInv_applyEv (s : MState) (ev : Ev) (hs : LedgerInv s) :
    LedgerInv (applyEv s ev) := by
  cases ev with
  | command bytes => exact ledgerInv_register _ _ hs
  | message m => exact ledgerInv_registerMessage _ _ hs
  | timerFire => exact ledgerInv_tick _ hs
  | toggleSim => exact ledgerInv_toggleMotionSimulation _ hs

theorem ledgerInv_applyEvs (evs : List Ev) (s : MState) (hs : LedgerInv s) :
    LedgerInv (applyEvs s evs) := by
  induction evs generalizing s with
  | nil => exact hs
  | cons ev evs ih =>
    exact ih (applyEv s ev) (ledgerInv_applyEv s ev hs)

theorem sumZ_nonneg (l : List ℕ) : 0 ≤ (l.map (fun (k : ℕ) => (k : ℤ))).sum := by
  induction l with
  | nil => exact le_refl 0
  | cons a l ih =>
    simp only [List.map_cons, List.sum_cons]
    omega

theorem ledgerInv_nonneg (s : MState) (hs : LedgerInv s) :
    0 ≤ s.numOfCharsInBuffer := by
  rw [hs]
  exact sumZ_nonneg s.bufferLineCharCounts

theorem popBufferLine_empty_eq (t : MState)
    (ht : t.bufferLineCharCounts = []) : popBufferLine t = t := by
  cases t
  simp only [popBufferLine, MState.mk.injEq] at *
  simp_all

/-- Claim C2: the ledger invariant — running total equals the sum of the
ledger entries, hence is never negative — holds after any sequence of
operations (command registrations, incoming messages, timer ticks,
simulation toggles) starting from a state satisfying it; and a pop
triggered by an ok/error message on an empty ledger leaves the machine
state entirely unchanged. -/
theorem ledger_invariant (evs : List Ev) (s : MState) (hs : LedgerInv s) :
    LedgerInv (applyEvs s evs) ∧
    0 ≤ (applyEvs s evs).numOfCharsInBuffer ∧
    (∀ (t : MState) (m : Msg), (m.startsOk || m.startsError) = true →
      t.bufferLineCharCounts = [] → registerMessage t m = t) := by
  have h := ledgerInv_applyEvs evs s hs
  refine ⟨h, ledgerInv_nonneg _ h, ?_⟩
  intro t m hm ht
  simp [registerMessage, hm, popBufferLine_empty_eq t ht]

/-- Witness for C2: a concrete run from the initial state. -/
theorem ledger_invariant_witness :
    LedgerInv (applyEvs MState.initial
      [Ev.command (encodeChars "G1 X5".data), Ev.message ⟨true, false, false, none, none⟩]) ∧
    0 ≤ (applyEvs MState.initial
      [Ev.command (encodeChars "G1 X5".data), Ev.message ⟨true, false, false, none, none⟩]).numOfCharsInBuffer ∧
    (∀ (t : MState) (m : Msg), (m.startsOk || m.startsError) = true →
      t.bufferLineCharCounts = [] → registerMessage t m = t) :=
  ledger_invariant _ MState.initial rfl

/-! ## Stuck motion dispatch (C10) -/

theorem processCommandWord_isMotion (acc : CmdAcc) (w : Word) :
    (processCommandWord acc w).isMotionCommand =
      (acc.isMotionCommand || isAxisWord w) := by
  simp only [processCommandWord, isAxisWord]
  split_ifs <;> simp_all

theorem foldl_processCommandWord_isMotion (ws : List Word) (acc : CmdAcc) :
    (ws.foldl processCommandWord acc).isMotionCommand =
      (acc.isMotionCommand || ws.any isAxisWord) := by
  induction ws generalizing acc with
  | nil => simp
  | cons w ws ih =>
    simp only [List.foldl_cons, List.any_cons]
    rw [ih, processCommandWord_isMotion, Bool.or_assoc]

theorem jog_isPrefix_dollar (l : List Char)
    (h : JOG_COMMAND_MARK.isPrefixOf l = true) : ['$'].isPrefixOf l = true := by
  rw [List.isPrefixOf_iff_prefix] at h ⊢
  exact List.IsPrefix.trans ⟨['J', '='], rfl⟩ h

theorem tick_of_pending_nil (t : MState) (h : t.pending = []) : t.tick = t := by
  simp only [MState.tick, h]

/-- From a stuck state, a single motion or jog command is enqueued and
changes neither the in-motion flag, the empty timer queue, nor the
position. -/
theorem register_stuck_step (s : MState) (c : List ℕ)
    (h1 : s.inMotion = true) (h2 : s.pending = [])
    (h3 : s.motionSimulationEnabled = true)
    (hc : isMotionOrJogCommand c = true) :
    (s.register c).inMotion = true ∧ (s.register c).pending = [] ∧
    (s.register c).pos = s.pos ∧
    (s.register c).motionCommandQueue = s.motionCommandQueue ++ [c] ∧
    (s.register c).motionSimulationEnabled = true := by
  simp only [isMotionOrJogCommand, Bool.or_eq_true, Bool.and_eq_true,
    Bool.not_eq_true'] at hc
  rcases hc with hjog | ⟨⟨hdollar, hrt⟩, haxis⟩
  · have hdol : ['$'].isPrefixOf (decodeBytes c) = true :=
      jog_isPrefix_dollar _ hjog
    refine ⟨?_, ?_, ?_, ?_, ?_⟩ <;>
      simp [MState.register, registerCommandF, registerCommandWith,
        registerSystemCommandWith, registerJogCommandWith, pushBufferLine,
        hdol, hjog, h1, h2, h3]
  · obtain ⟨e1, e2, e3, e4, e5, e6, e7⟩ := foldl_processCommandWord_fields
      (parseCommand (decodeBytes c)) ⟨pushBufferLine s c, {}, false, none, {}⟩
    have hmot : ((parseCommand (decodeBytes c)).foldl processCommandWord
        ⟨pushBufferLine s c, {}, false, none, {}⟩).isMotionCommand = true := by
      rw [foldl_processCommandWord_isMotion]
      simp [haxis]
    have p1 : (pushBufferLine s c).pos = s.pos := rfl
    have p2 : (pushBufferLine s c).inMotion = s.inMotion := rfl
    have p3 : (pushBufferLine s c).pending = s.pending := rfl
    have p4 : (pushBufferLine s c).motionCommandQueue = s.motionCommandQueue := rfl
    have p5 : (pushBufferLine s c).motionSimulationEnabled =
        s.motionSimulationEnabled := rfl
    refine ⟨?_, ?_, ?_, ?_, ?_⟩ <;>
      simp [MState.register, registerCommandF, registerCommandWith, hdollar,
        hrt, hmot, e3, e4, e5, e6, e7, p1, p2, p3, p4, p5, h1, h2, h3]

/-- From a stuck state, any sequence of motion or jog commands is
enqueued in order, the in-motion flag stays set with no pending tick, the
position never changes, and a timer-fire event is a no-op. -/
theorem register_stuck_run (s : MState) (cmds : List (List ℕ))
    (h1 : s.inMotion = true) (h2 : s.pending = [])
    (h3 : s.motionSimulationEnabled = true)
    (hc : ∀ c ∈ cmds, isMotionOrJogCommand c = true) :
    (cmds.foldl MState.register s).inMotion = true ∧
    (cmds.foldl MState.register s).pending = [] ∧
    (cmds.foldl MState.register s).pos = s.pos ∧
    (cmds.foldl MState.register s).motionCommandQueue =
      s.motionCommandQueue ++ cmds ∧
    (cmds.foldl MState.register s).motionSimulationEnabled = true ∧
    (cmds.foldl MState.register s).tick = cmds.foldl MState.register s := by
  induction cmds generalizing s with
  | nil =>
    exact ⟨h1, h2, rfl, by simp, h3, tick_of_pending_nil _ h2⟩
  | cons c cmds ih =>
    obtain ⟨a1, a2, a3, a4, a5⟩ := register_stuck_step s c h1 h2 h3
      (hc c (List.mem_cons_self c cmds))
    obtain ⟨b1, b2, b3, b4, b5, b6⟩ := ih (s.register c) a1 a2 a5
      (fun d hd => hc d (List.mem_cons_of_mem c hd))
    refine ⟨b1, b2, ?_, ?_, b5, b6⟩
    · rw [List.foldl_cons, b3, a3]
    · rw [List.foldl_cons, b4, a4]
      simp

/-- Claim C10: when motion dispatch runs but schedules no simulation step
— Rapid mode, zero linear delta, an arc target lacking an axis word, a
degenerate radius-form chord, or a negative `centerDispSquared` — the
in-motion flag is left true with no pending tick; from any such stuck
state every subsequently registered motion or jog command is enqueued and
never simulated (position unchanged, timer fire a no-op), until toggling
motion simulation off clears the flag and the queue. -/
theorem stuck_motion_dispatch :
    ((simReadyState.register (encodeChars "G0 X1".data)).inMotion = true ∧
     (simReadyState.register (encodeChars "G0 X1".data)).pending = []) ∧
    ((simReadyState.register (encodeChars "G1 X0".data)).inMotion = true ∧
     (simReadyState.register (encodeChars "G1 X0".data)).pending = []) ∧
    ((simReadyState.register (encodeChars "G2 X5".data)).inMotion = true ∧
     (simReadyState.register (encodeChars "G2 X5".data)).pending = []) ∧
    ((simReadyState.register (encodeChars "G2 X0 Y0 R5".data)).inMotion = true ∧
     (simReadyState.register (encodeChars "G2 X0 Y0 R5".data)).pending = []) ∧
    ((simReadyState.register (encodeChars "G2 X10 Y0 R1".data)).inMotion = true ∧
     (simReadyState.register (encodeChars "G2 X10 Y0 R1".data)).pending = []) ∧
    (∀ (s : MState) (cmds : List (List ℕ)),
      s.inMotion = true → s.pending = [] → s.motionSimulationEnabled = true →
      (∀ c ∈ cmds, isMotionOrJogCommand c = true) →
      (cmds.foldl MState.register s).inMotion = true ∧
      (cmds.foldl MState.register s).pending = [] ∧
      (cmds.foldl MState.register s).pos = s.pos ∧
      (cmds.foldl MState.register s).motionCommandQueue =
        s.motionCommandQueue ++ cmds ∧
      (cmds.foldl MState.register s).tick = cmds.foldl MState.register s) ∧
    (∀ t : MState, t.motionSimulationEnabled = true →
      (toggleMotionSimulation t).inMotion = false ∧
      (toggleMotionSimulation t).motionCommandQueue = [] ∧
      (toggleMotionSimulation t).motionSimulationEnabled = false) := by
  refine ⟨⟨rfl, rfl⟩, ?_, ⟨rfl, rfl⟩, ?_, ?_, ?_, ?_⟩
  · have h1 : simReadyState.register (encodeChars "G1 X0".data) =
        beginLinearMotionSimulationWith (registerCommandF 0) stuckZeroDelta
          ⟨some (some 0), none, none⟩ false none none := rfl
    have h2 : beginLinearMotionSimulationWith (registerCommandF 0)
        stuckZeroDelta ⟨some (some 0), none, none⟩ false none none =
        stuckZeroDelta := by
      simp only [beginLinearMotionSimulationWith, Option.getD_none,
        show stuckZeroDelta.distanceMode = DistanceMode.Abs from rfl,
        show stuckZeroDelta.pos.x = some 0 from rfl,
        show stuckZeroDelta.pos.y = some 0 from rfl,
        show stuckZeroDelta.pos.z = some 0 from rfl,
        show stuckZeroDelta.feedrate = none from rfl,
        jsArgToJNum, jadd, jsub, jmul, jsq, jsqrt, jgt, jlt, jdiv, jnum_ofNat,
        Option.map_some', Rat.cast_zero]
      norm_num
    rw [h1, h2]
    exact ⟨rfl, rfl⟩
  · have h1 : simReadyState.register (encodeChars "G2 X0 Y0 R5".data) =
        beginRadiusArcMotionSimulationWith (registerCommandF 0) stuckDegenArc
          ⟨jsArgToJNum (some 0), jsArgToJNum (some 0)⟩ true
          (jsArgToJNum (some 5)) := rfl
    have h2 : beginRadiusArcMotionSimulationWith (registerCommandF 0)
        stuckDegenArc ⟨jsArgToJNum (some 0), jsArgToJNum (some 0)⟩ true
        (jsArgToJNum (some 5)) = stuckDegenArc := by
      norm_num [beginRadiusArcMotionSimulationWith,
        show stuckDegenArc.pos.x = some 0 from rfl,
        show stuckDegenArc.pos.y = some 0 from rfl,
        jsArgToJNum, Option.map_some', jeq, jsub, jsq, jmul, jge, jle, jlt,
        jnum_ofNat, decide_eq_true_eq]
    rw [h1, h2]
    exact ⟨rfl, rfl⟩
  · have h1 : simReadyState.register (encodeChars "G2 X10 Y0 R1".data) =
        beginRadiusArcMotionSimulationWith (registerCommandF 0) stuckNegDisc
          ⟨jsArgToJNum (some 10), jsArgToJNum (some 0)⟩ true
          (jsArgToJNum (some 1)) := rfl
    have h2 : beginRadiusArcMotionSimulationWith (registerCommandF 0)
        stuckNegDisc ⟨jsArgToJNum (some 10), jsArgToJNum (some 0)⟩ true
        (jsArgToJNum (some 1)) = stuckNegDisc := by
      norm_num [beginRadiusArcMotionSimulationWith,
        show stuckNegDisc.pos.x = some 0 from rfl,
        show stuckNegDisc.pos.y = some 0 from rfl,
        jsArgToJNum, Option.map_some', jeq, jsub, jsq, jmul, jge, jle, jlt,
        jnum_ofNat, decide_eq_true_eq]
    rw [h1, h2]
    exact ⟨rfl, rfl⟩
  · intro s cmds h1 h2 h3 hc
    obtain ⟨b1, b2, b3, b4, _, b6⟩ := register_stuck_run s cmds h1 h2 h3 hc
    exact ⟨b1, b2, b3, b4, b6⟩
  · intro t ht
    refine ⟨?_, ?_, ?_⟩ <;> simp [toggleMotionSimulation, ht]

/-- Witness for C10: from a concrete stuck state, a concrete motion
command is enqueued, and toggling simulation off releases the stuck
state. -/
theorem stuck_motion_dispatch_witness :
    (([encodeChars "G1 X7".data].foldl MState.register
      stuckState).motionCommandQueue =
      stuckState.motionCommandQueue ++ [encodeChars "G1 X7".data]) ∧
    (toggleMotionSimulation stuckState).inMotion = false := by
  have h := stuck_motion_dispatch
  refine ⟨?_, ?_⟩
  · exact (h.2.2.2.2.2.1 stuckState [encodeChars "G1 X7".data] rfl rfl rfl
      (by intro c hcm; rw [List.mem_singleton] at hcm; subst hcm; rfl)).2.2.2.1
  · exact (h.2.2.2.2.2.2 stuckState rfl).1

/-! ## Radius-form arc resolution (C7) -/

/-- Claim C7: for the radius-form clockwise arc from current position
`(0, 0)` to target `(10, 0)` with radius 5, the resolved center is
`(5, 0)`, at distance exactly 5 from both the current position and the
target, and the swept arc angle computed for that center is exactly π. -/
theorem radius_arc_semicircle_spec :
    radiusArcCenter (some 0) (some 0) (some 10) (some 0) true (some 5) =
      ⟨some 5, some 0⟩ ∧
    jsqrt (jadd
      (jsq (jsub (radiusArcCenter (some 0) (some 0) (some 10) (some 0) true
        (some 5)).x (some 0)))
      (jsq (jsub (radiusArcCenter (some 0) (some 0) (some 10) (some 0) true
        (some 5)).y (some 0)))) = some 5 ∧
    jsqrt (jadd
      (jsq (jsub (radiusArcCenter (some 0) (some 0) (some 10) (some 0) true
        (some 5)).x (some 10)))
      (jsq (jsub (radiusArcCenter (some 0) (some 0) (some 10) (some 0) true
        (some 5)).y (some 0)))) = some 5 ∧
    arcAngle ⟨some 0, some 0⟩ ⟨some 10, some 0⟩
      (radiusArcCenter (some 0) (some 0) (some 10) (some 0) true (some 5)) =
      some Real.pi := by
  have h100 : Real.sqrt 100 = 10 := real_sqrt_eval 100 10 (by norm_num) (by norm_num)
  have h25 : Real.sqrt 25 = 5 := real_sqrt_eval 25 5 (by norm_num) (by norm_num)
  have hc : radiusArcCenter (some 0) (some 0) (some 10) (some 0) true (some 5) =
      ⟨some 5, some 0⟩ := by
    norm_num [radiusArcCenter, jn, jadd, jsub, jmul, jsq, jneg, jdiv, jsqrt,
      jlt, jnum_ofNat, decide_eq_true_eq, Real.sqrt_zero, JVec2.mk.injEq, h100]
  refine ⟨hc, ?_, ?_, ?_⟩
  · rw [hc]
    norm_num [jadd, jsub, jsq, jmul, jsqrt, h25]
  · rw [hc]
    norm_num [jadd, jsub, jsq, jmul, jsqrt, h25]
  · rw [hc]
    norm_num [arcAngle, dotProduct2D, crossProduct2D, jadd, jsub, jmul, jsq,
      jsqrt, jlt, jgt, jeq, jpi, jnum_ofNat, decide_eq_true_eq, h25]

/-- Claim C9: when a standard motion command arrives while a motion is in
flight, its byte length is pushed onto the command buffer ledger at
arrival time and the command is queued; when the in-flight motion
completes, `#endMotion` re-dispatches the queued command through
`registerCommand`, which pushes its length onto the ledger a second time,
so a queued-then-drained command is counted twice in the running total
even though it was transmitted once.  Concretely, the five-byte command
`G1 X5` queued behind a finishing motion leaves the ledger at `[5, 5]`
with running total 10 once the motion drains. -/
theorem queued_command_double_count :
    (∀ s : MState, s.inMotion = true → s.motionSimulationEnabled = true →
      (s.register (encodeChars "G1 X5".data)).bufferLineCharCounts =
        s.bufferLineCharCounts ++ [5] ∧
      (s.register (encodeChars "G1 X5".data)).numOfCharsInBuffer =
        s.numOfCharsInBuffer + 5 ∧
      (s.register (encodeChars "G1 X5".data)).motionCommandQueue =
        s.motionCommandQueue ++ [encodeChars "G1 X5".data]) ∧
    nearDoneMotionState.register (encodeChars "G1 X5".data) =
      queuedMotionState ∧
    queuedMotionState.bufferLineCharCounts = [5] ∧
    queuedMotionState.numOfCharsInBuffer = 5 ∧
    queuedMotionState.motionCommandQueue = [encodeChars "G1 X5".data] ∧
    queuedMotionState.tick = drain1State ∧
    drain1State.bufferLineCharCounts = [5, 5] ∧
    drain1State.numOfCharsInBuffer = 10 ∧
    drain1State.motionCommandQueue = [] ∧
    drain1State.tick = drainedMotionState ∧
    drainedMotionState.numOfCharsInBuffer = 10 ∧
    drainedMotionState.inMotion = false := by
  have h4 : Real.sqrt 4 = 2 := real_sqrt_eval 4 2 (by norm_num) (by norm_num)
  have h9 : Real.sqrt 9 = 3 := real_sqrt_eval 9 3 (by norm_num) (by norm_num)
  have s1 : queuedMotionState.tick =
      simulateLinearMotionWith (registerCommandF 2)
        {queuedMotionState with pending := []} ⟨some 0, some 0, some 0⟩
        ⟨some 1, some 0, some 0⟩ (some 1) (some 2) false := rfl
  have s2 : simulateLinearMotionWith (registerCommandF 2)
        {queuedMotionState with pending := []} ⟨some 0, some 0, some 0⟩
        ⟨some 1, some 0, some 0⟩ (some 1) (some 2) false =
      endMotionWith (registerCommandF 2) midTickState := by
    have e1 : queuedMotionState.pos.x = some 1 := rfl
    have e2 : queuedMotionState.pos.y = some 0 := rfl
    have e3 : queuedMotionState.pos.z = some 0 := rfl
    have e4 : queuedMotionState.motionSimulationEnabled = true := rfl
    simp only [simulateLinearMotionWith, e1, e2, e3, e4, jadd, jsub, jsq,
      jmul, jsqrt, jlt, jnum_ofNat, midTickState, decide_eq_true_eq]
    norm_num [h4]
  have s3 : endMotionWith (registerCommandF 2) midTickState =
      {registerCommandWith (registerCommandF 1) {midTickState with inMotion := false, motionCommandQueue := []} (encodeChars "G1 X5".data) with simulationTimeoutId := none, jogSimulationTimeoutId := none} := rfl
  have s4 : registerCommandWith (registerCommandF 1)
        {midTickState with inMotion := false, motionCommandQueue := []}
        (encodeChars "G1 X5".data) =
      beginLinearMotionSimulationWith (registerCommandF 1) drainInnerState
        ⟨some (some 5), none, none⟩ false none none := rfl
  have s5 : beginLinearMotionSimulationWith (registerCommandF 1)
        drainInnerState ⟨some (some 5), none, none⟩ false none none =
      simulateLinearMotionWith (registerCommandF 1) drainInnerState
        ⟨some 2, some 0, some 0⟩ ⟨some 1, some 0, some 0⟩ (some 1) (some 3)
        false := by
    have e1 : drainInnerState.pos.x = some 2 := rfl
    have e2 : drainInnerState.pos.y = some 0 := rfl
    have e3 : drainInnerState.pos.z = some 0 := rfl
    have e4 : drainInnerState.distanceMode = DistanceMode.Abs := rfl
    have e5 : drainInnerState.feedrate = some (some 2400) := rfl
    simp only [beginLinearMotionSimulationWith, e1, e2, e3, e4, e5,
      jsArgToJNum, Option.map_some', Option.getD_some, Option.getD_none,
      jadd, jsub, jmul, jdiv, jsq, jsqrt, jgt, jlt, jnum_ofNat,
      SIMULATION_UPDATE_INTERVAL_MS, decide_eq_true_eq, Rat.cast_ofNat]
    norm_num [h9, Real.sqrt_one]
  have s6 : simulateLinearMotionWith (registerCommandF 1) drainInnerState
        ⟨some 2, some 0, some 0⟩ ⟨some 1, some 0, some 0⟩ (some 1) (some 3)
        false =
      {drain1State with simulationTimeoutId := some 1} := by
    have e1 : drainInnerState.pos.x = some 2 := rfl
    have e2 : drainInnerState.pos.y = some 0 := rfl
    have e3 : drainInnerState.pos.z = some 0 := rfl
    have e4 : drainInnerState.motionSimulationEnabled = true := rfl
    have e5 : drainInnerState.pending = [] := rfl
    have e6 : drainInnerState.nextTimeoutId = 1 := rfl
    simp only [simulateLinearMotionWith, scheduleTimeout,
      setSimulationTimeoutId, e1, e2, e3, e4, e5, e6, jadd, jsub, jsq, jmul,
      jsqrt, jlt, jnum_ofNat, decide_eq_true_eq, drain1State]
    norm_num [Real.sqrt_one]
  have hB : queuedMotionState.tick = drain1State := by
    rw [s1, s2, s3, s4, s5, s6]
    exact rfl
  have v1 : drain1State.tick =
      simulateLinearMotionWith (registerCommandF 1)
        {drain1State with pending := []} ⟨some 2, some 0, some 0⟩
        ⟨some 1, some 0, some 0⟩ (some 1) (some 3) false := rfl
  have v2 : simulateLinearMotionWith (registerCommandF 1)
        {drain1State with pending := []} ⟨some 2, some 0, some 0⟩
        ⟨some 1, some 0, some 0⟩ (some 1) (some 3) false =
      endMotionWith (registerCommandF 1) {drain1State with pending := [], pos := ⟨some 4, some 0, some 0⟩} := by
    have e1 : drain1State.pos.x = some 3 := rfl
    have e2 : drain1State.pos.y = some 0 := rfl
    have e3 : drain1State.pos.z = some 0 := rfl
    have e4 : drain1State.motionSimulationEnabled = true := rfl
    simp only [simulateLinearMotionWith, e1, e2, e3, e4, jadd, jsub, jsq,
      jmul, jsqrt, jlt, jnum_ofNat, decide_eq_true_eq]
    norm_num [h4]
  have v3 : endMotionWith (registerCommandF 1) {drain1State with pending := [], pos := ⟨some 4, some 0, some 0⟩} =
      drainedMotionState := rfl
  have hC : drain1State.tick = drainedMotionState := v1.trans (v2.trans v3)
  refine ⟨?_, rfl, rfl, rfl, rfl, hB, rfl, rfl, rfl, hC, rfl, rfl⟩
  intro s h1 h3
  have hdollar : List.isPrefixOf ['$']
      (decodeBytes (encodeChars "G1 X5".data)) = false := rfl
  have hrt : isRealtimeCommand (encodeChars "G1 X5".data) = false := rfl
  have hmot : ((parseCommand (decodeBytes (encodeChars "G1 X5".data))).foldl
      processCommandWord
      ⟨pushBufferLine s (encodeChars "G1 X5".data), {}, false, none, {}⟩).isMotionCommand = true := rfl
  have a1 : ((parseCommand (decodeBytes (encodeChars "G1 X5".data))).foldl
      processCommandWord
      ⟨pushBufferLine s (encodeChars "G1 X5".data), {}, false, none, {}⟩).s.bufferLineCharCounts = s.bufferLineCharCounts ++ [5] := rfl
  have a2 : ((parseCommand (decodeBytes (encodeChars "G1 X5".data))).foldl
      processCommandWord
      ⟨pushBufferLine s (encodeChars "G1 X5".data), {}, false, none, {}⟩).s.numOfCharsInBuffer = s.numOfCharsInBuffer + 5 := rfl
  have a3 : ((parseCommand (decodeBytes (encodeChars "G1 X5".data))).foldl
      processCommandWord
      ⟨pushBufferLine s (encodeChars "G1 X5".data), {}, false, none, {}⟩).s.motionCommandQueue = s.motionCommandQueue := rfl
  have a4 : ((parseCommand (decodeBytes (encodeChars "G1 X5".data))).foldl
      processCommandWord
      ⟨pushBufferLine s (encodeChars "G1 X5".data), {}, false, none, {}⟩).s.inMotion = s.inMotion := rfl
  have a5 : ((parseCommand (decodeBytes (encodeChars "G1 X5".data))).foldl
      processCommandWord
      ⟨pushBufferLine s (encodeChars "G1 X5".data), {}, false, none, {}⟩).s.motionSimulationEnabled = s.motionSimulationEnabled := rfl
  refine ⟨?_, ?_, ?_⟩ <;>
    simp [MState.register, registerCommandF, registerCommandWith, hdollar,
      hrt, hmot, a1, a2, a3, a4, a5, h1, h3]
theorem queued_command_double_count_witness :
    nearDoneMotionState.inMotion = true ∧
    nearDoneMotionState.motionSimulationEnabled = true ∧
    (nearDoneMotionState.register (encodeChars "G1 X5".data)).numOfCharsInBuffer =
      nearDoneMotionState.numOfCharsInBuffer + 5 :=
  ⟨rfl, rfl, (queued_command_double_count.1 nearDoneMotionState rfl rfl).2.1⟩

/-- Claim C6: for the linear motion starting at the origin in absolute
distance mode with feed rate 6000 units/min and target X10 Y0 Z0
(simulation enabled, 25 ms tick interval): the simulated positions run
0, 2.5, 5, 7.5 on the x axis, strictly increasing, with y and z pinned
at 0 throughout; the run ends with no pending tick and a final position
within one tick-step (2.5) of the target `(10, 0, 0)`. -/
theorem linear_motion_simulation_run :
    linearStartState.pos = ⟨some 0, some 0, some 0⟩ ∧
    linearStartState.register (encodeChars "G1 X10 Y0 Z0".data) =
      linearRun1 ∧
    linearRun1.tick = linearRun2 ∧
    linearRun2.tick = linearRun3 ∧
    linearRun1.pos = ⟨some 2.5, some 0, some 0⟩ ∧
    linearRun2.pos = ⟨some 5, some 0, some 0⟩ ∧
    linearRun3.pos = ⟨some 7.5, some 0, some 0⟩ ∧
    linearRun3.inMotion = false ∧
    linearRun3.pending = [] ∧
    ((0 : ℝ) < 2.5 ∧ (2.5 : ℝ) < 5 ∧ (5 : ℝ) < 7.5) ∧
    Real.sqrt ((10 - 7.5) ^ 2 + (0 - 0) ^ 2 + (0 - 0) ^ 2) ≤ 2.5 := by
  have w1 : linearStartState.register (encodeChars "G1 X10 Y0 Z0".data) =
      beginLinearMotionSimulationWith (registerCommandF 0) linearDispatchState
        ⟨some (some 10), some (some 0), some (some 0)⟩ false none none := rfl
  have w2 : beginLinearMotionSimulationWith (registerCommandF 0)
        linearDispatchState ⟨some (some 10), some (some 0), some (some 0)⟩
        false none none =
      simulateLinearMotionWith (registerCommandF 0) linearDispatchState
        ⟨some 0, some 0, some 0⟩ ⟨some 2.5, some 0, some 0⟩ (some 2.5)
        (some 10) false := by
    have h100 : Real.sqrt 100 = 10 := real_sqrt_eval 100 10 (by norm_num) (by norm_num)
    have h25 : Real.sqrt 25 = 5 := real_sqrt_eval 25 5 (by norm_num) (by norm_num)
    have hs4 : Real.sqrt 4 = 2 := real_sqrt_eval 4 2 (by norm_num) (by norm_num)
    have e1 : linearDispatchState.pos.x = some 0 := rfl
    have e2 : linearDispatchState.pos.y = some 0 := rfl
    have e3 : linearDispatchState.pos.z = some 0 := rfl
    have e4 : linearDispatchState.distanceMode = DistanceMode.Abs := rfl
    have e5 : linearDispatchState.feedrate = some (some 6000) := rfl
    simp only [beginLinearMotionSimulationWith, e1, e2, e3, e4, e5,
      jsArgToJNum, Option.map_some', Option.getD_some, Option.getD_none,
      jadd, jsub, jmul, jdiv, jsq, jsqrt, jgt, jlt, jnum_ofNat,
      SIMULATION_UPDATE_INTERVAL_MS, decide_eq_true_eq, Rat.cast_ofNat]
    norm_num [h100, h25, hs4]
  have w3 : simulateLinearMotionWith (registerCommandF 0)
        linearDispatchState ⟨some 0, some 0, some 0⟩
        ⟨some 2.5, some 0, some 0⟩ (some 2.5) (some 10) false =
      linearRun1 := by
    have h25 : Real.sqrt 25 = 5 := real_sqrt_eval 25 5 (by norm_num) (by norm_num)
    have hs4 : Real.sqrt 4 = 2 := real_sqrt_eval 4 2 (by norm_num) (by norm_num)
    have e1 : linearDispatchState.pos.x = some 0 := rfl
    have e2 : linearDispatchState.pos.y = some 0 := rfl
    have e3 : linearDispatchState.pos.z = some 0 := rfl
    have e4 : linearDispatchState.motionSimulationEnabled = true := rfl
    have e5 : linearDispatchState.pending = [] := rfl
    have e6 : linearDispatchState.nextTimeoutId = 0 := rfl
    simp only [simulateLinearMotionWith, scheduleTimeout,
      setSimulationTimeoutId, e1, e2, e3, e4, e5, e6, jadd, jsub, jsq, jmul,
      jsqrt, jlt, jnum_ofNat, decide_eq_true_eq, linearRun1]
    norm_num [h25, hs4]
  have x1 : linearRun1.tick =
      simulateLinearMotionWith (registerCommandF 1)
        {linearRun1 with pending := []} ⟨some 0, some 0, some 0⟩
        ⟨some 2.5, some 0, some 0⟩ (some 2.5) (some 10) false := rfl
  have x2 : simulateLinearMotionWith (registerCommandF 1)
        {linearRun1 with pending := []} ⟨some 0, some 0, some 0⟩
        ⟨some 2.5, some 0, some 0⟩ (some 2.5) (some 10) false =
      linearRun2 := by
    have h25 : Real.sqrt 25 = 5 := real_sqrt_eval 25 5 (by norm_num) (by norm_num)
    have e1 : linearRun1.pos.x = some 2.5 := rfl
    have e2 : linearRun1.pos.y = some 0 := rfl
    have e3 : linearRun1.pos.z = some 0 := rfl
    have e4 : linearRun1.motionSimulationEnabled = true := rfl
    have e5 : linearRun1.nextTimeoutId = 1 := rfl
    simp only [simulateLinearMotionWith, scheduleTimeout,
      setSimulationTimeoutId, e1, e2, e3, e4, e5, jadd, jsub, jsq, jmul,
      jsqrt, jlt, jnum_ofNat, decide_eq_true_eq, linearRun2]
    norm_num [h25]
  have y1 : linearRun2.tick =
      simulateLinearMotionWith (registerCommandF 1)
        {linearRun2 with pending := []} ⟨some 0, some 0, some 0⟩
        ⟨some 2.5, some 0, some 0⟩ (some 2.5) (some 10) false := rfl
  have y2 : simulateLinearMotionWith (registerCommandF 1)
        {linearRun2 with pending := []} ⟨some 0, some 0, some 0⟩
        ⟨some 2.5, some 0, some 0⟩ (some 2.5) (some 10) false =
      endMotionWith (registerCommandF 1) {linearRun2 with pending := [], pos := ⟨some 7.5, some 0, some 0⟩} := by
    have h225 : Real.sqrt 225 = 15 := real_sqrt_eval 225 15 (by norm_num) (by norm_num)
    have hs4 : Real.sqrt 4 = 2 := real_sqrt_eval 4 2 (by norm_num) (by norm_num)
    have e1 : linearRun2.pos.x = some 5 := rfl
    have e2 : linearRun2.pos.y = some 0 := rfl
    have e3 : linearRun2.pos.z = some 0 := rfl
    have e4 : linearRun2.motionSimulationEnabled = true := rfl
    simp only [simulateLinearMotionWith, e1, e2, e3, e4, jadd, jsub, jsq,
      jmul, jsqrt, jlt, jnum_ofNat, decide_eq_true_eq]
    norm_num [h225, hs4]
  have y3 : endMotionWith (registerCommandF 1) {linearRun2 with pending := [], pos := ⟨some 7.5, some 0, some 0⟩} =
      linearRun3 := rfl
  have h25 : Real.sqrt 25 = 5 := real_sqrt_eval 25 5 (by norm_num) (by norm_num)
  have hs4 : Real.sqrt 4 = 2 := real_sqrt_eval 4 2 (by norm_num) (by norm_num)
  have hreg : linearStartState.register (encodeChars "G1 X10 Y0 Z0".data) =
      linearRun1 := w1.trans (w2.trans w3)
  have hx : linearRun1.tick = linearRun2 := x1.trans x2
  have hy : linearRun2.tick = linearRun3 := y1.trans (y2.trans y3)
  refine ⟨rfl, hreg, hx, hy, rfl, rfl, rfl, rfl, rfl, by norm_num, ?_⟩
  norm_num [h25, hs4]

end WebGCode
